import Mathlib

/-!
# aerial_autonomy: the active-controller registry and the controller connectors

A shallow embedding of `UAVSystem` (include/aerial_autonomy/robot_systems/uav_system.h)
and of the connectors
(src/controller_connectors/qrotor_backstepping_controller_connector.cpp,
src/controller_connectors/rpyt_relative_pose_visual_servoing_connector.cpp,
src/controller_connectors/builtin_pose_controller_arm_connector.cpp), of the reference
trajectory interface (include/aerial_autonomy/types/reference_trajectory.h), of the MPC
trajectory visualizer (src/common/mpc_trajectory_visualizer.cpp), and of the
guards and internal actions of the flight-mode state machine as far as the tests
(tests/actions_guards/uav_basic_functor_tests.cpp) and the specification fix them.

Conventions of the embedding:
* C++ `double` values are rationals (`ℚ`), a decimal literal being the rational it writes.
  Sums, differences and the products of the integration steps are exact.  The products
  and quotients of the thrust bound and of the thrust command of the backstepping
  connector are those of the `NumericLibrary`, so that the rounding of IEEE 754 `double`
  arithmetic, which decides that bound, can be taken into account.  NaN, overflow and
  underflow are not modelled.
* Member functions become functions from the object state to the new state, paired
  with what the call emitted (lock events, connector runs, hardware messages).
* A `nullptr` connector pointer is `none`.
* Clock readings (`high_resolution_clock::now()`) are explicit arguments, one per call.
-/

namespace AerialAutonomy

/-! ## Data model -/

/-- The actuation domains: the two keys the `UAVSystem` constructor enters in
`active_controllers_` and `thread_mutexes_`. -/
inductive HardwareType where
  | Arm
  | UAV
  deriving DecidableEq

/-- Status reported by a connector. -/
inductive ControllerStatus where
  | Active
  | Completed
  | Critical
  | NotEngaged
  deriving DecidableEq

/-- Position and yaw goal. -/
structure PositionYaw where
  x : ℚ
  y : ℚ
  z : ℚ
  yaw : ℚ
  deriving DecidableEq

/-- Velocity and yaw goal. -/
structure VelocityYaw where
  x : ℚ
  y : ℚ
  z : ℚ
  yaw : ℚ
  deriving DecidableEq

/-- Goal of a controller that takes no goal. -/
structure EmptyGoal where
  deriving DecidableEq

/-- The connector types registered in `controller_hardware_connector_container_` by the
`UAVSystem` constructor (one object per type, so a type names its object). -/
inductive ConnectorT where
  | PositionControllerDroneConnector
  | BuiltInVelocityControllerDroneConnector
  | ManualRPYTControllerDroneConnector
  deriving DecidableEq

/-- Goal type of each registered connector (the `GoalT` template argument of
`setGoal` and `getGoal`); `getSystemStatus` reads a `PositionYaw` and a `VelocityYaw`
from the two built-in controllers. -/
def GoalT : ConnectorT → Type
  | .PositionControllerDroneConnector => PositionYaw
  | .BuiltInVelocityControllerDroneConnector => VelocityYaw
  | .ManualRPYTControllerDroneConnector => EmptyGoal

/-- Modelled from the spec: the state of a `ControllerHardwareConnector` that the
registry can observe (the base class is not among the sources): the goal it holds and
its status. -/
structure ConnectorState (G : Type) where
  goal : G
  status : ControllerStatus

/-- Modelled from the spec: `ControllerHardwareConnector::setGoal` replaces the goal;
the status after it is `Active`, as the tests assert right after a goal is set
(`TransitionActionTest`). -/
def ConnectorState.setGoal {G : Type} (_k : ConnectorState G) (goal : G) : ConnectorState G :=
  { goal := goal, status := ControllerStatus.Active }

/-- Modelled from the spec: `ControllerHardwareConnector::getGoal`. -/
def ConnectorState.getGoal {G : Type} (k : ConnectorState G) : G :=
  k.goal

/-- Outcome of one `run()` of a connector: its new status, the hardware after the run
and the number of commands the run wrote to the hardware. -/
structure RunResult (H : Type) where
  status : ControllerStatus
  hardware : H
  writes : Nat

/-- The parts of the connectors that `UAVSystem` calls and that are not among the
sources, taken as parameters: the static `getHardwareType()` of each connector and
the effect of its `run()`, which reads the goal, the status and the hardware. -/
structure Connectors (H : Type) where
  getHardwareType : ConnectorT → HardwareType
  run : (c : ConnectorT) → GoalT c → ControllerStatus → H → RunResult H

/-- What a `UAVSystem` call does that is visible from outside its state. -/
inductive Event where
  /-- A `boost::mutex::scoped_lock` on the mutex of the group is constructed. -/
  | lock (h : HardwareType)
  /-- The scoped lock on the mutex of the group is destroyed. -/
  | unlock (h : HardwareType)
  /-- Method `run()` is called on the connector. -/
  | run (c : ConnectorT)
  /-- One command is written to the hardware by the running connector. -/
  | hardwareWrite (c : ConnectorT)
  deriving DecidableEq

/-- State of a `UAVSystem`: the hardware, the registered connector objects and the map
of active controllers (`nullptr` is `none`).  The mutexes of `thread_mutexes_` are free
between two calls; their use shows in the events of a call. -/
structure UAVSystem (H : Type) where
  drone_hardware_ : H
  connectors : (c : ConnectorT) → ConnectorState (GoalT c)
  active_controllers_ : HardwareType → Option ConnectorT

namespace UAVSystem

variable {H : Type}

/-- The constructor: the connectors are registered and both entries of
`active_controllers_` are set to `nullptr`. -/
def construct (drone_hardware : H) (connectors : (c : ConnectorT) → ConnectorState (GoalT c)) :
    UAVSystem H :=
  { drone_hardware_ := drone_hardware
    connectors := connectors
    active_controllers_ := fun _ => none }

/-- Source function `UAVSystem::setGoal<ControllerHardwareConnectorT, GoalT>`. -/
def setGoal (K : Connectors H) (s : UAVSystem H) (c : ConnectorT) (goal : GoalT c) :
    UAVSystem H × List Event :=
  let s1 : UAVSystem H :=
    { s with connectors := Function.update s.connectors c ((s.connectors c).setGoal goal) }
  let hardware_type := K.getHardwareType c
  if s1.active_controllers_ hardware_type ≠ some c then
    ({ s1 with
        active_controllers_ := Function.update s1.active_controllers_ hardware_type (some c) },
      [Event.lock hardware_type, Event.unlock hardware_type])
  else
    (s1, [])

/-- Source function `UAVSystem::getGoal<ControllerHardwareConnectorT, GoalT>`. -/
def getGoal (s : UAVSystem H) (c : ConnectorT) : GoalT c :=
  (s.connectors c).getGoal

/-- Source function `UAVSystem::abortController`. -/
def abortController (s : UAVSystem H) (hardware_type : HardwareType) :
    UAVSystem H × List Event :=
  ({ s with active_controllers_ := Function.update s.active_controllers_ hardware_type none },
    [Event.lock hardware_type, Event.unlock hardware_type])

/-- Source function `UAVSystem::runActiveController`. -/
def runActiveController (K : Connectors H) (s : UAVSystem H) (hardware_type : HardwareType) :
    UAVSystem H × List Event :=
  match s.active_controllers_ hardware_type with
  | none => (s, [])
  | some active_controller =>
    let r := K.run active_controller (s.connectors active_controller).goal
      (s.connectors active_controller).status s.drone_hardware_
    ({ s with
        drone_hardware_ := r.hardware
        connectors := Function.update s.connectors active_controller
          { goal := (s.connectors active_controller).goal, status := r.status } },
      [Event.lock hardware_type, Event.run active_controller]
        ++ List.replicate r.writes (Event.hardwareWrite active_controller)
        ++ [Event.unlock hardware_type])

/-- Modelled from the spec: `statusOf(group)`, the `getActiveControllerStatus` that the
tests call and that this version of the header does not declare: `NotEngaged` if no
connector is active, else the status of the active connector. -/
def getActiveControllerStatus (s : UAVSystem H) (hardware_type : HardwareType) :
    ControllerStatus :=
  match s.active_controllers_ hardware_type with
  | none => ControllerStatus.NotEngaged
  | some c => (s.connectors c).status

/-- One call on the public surface of the registry. -/
inductive Op where
  | setGoal (c : ConnectorT) (goal : GoalT c)
  | abortController (hardware_type : HardwareType)
  | runActiveController (hardware_type : HardwareType)

/-- Performs one call. -/
def step (K : Connectors H) (s : UAVSystem H) : Op → UAVSystem H × List Event
  | .setGoal c goal => s.setGoal K c goal
  | .abortController h => s.abortController h
  | .runActiveController h => s.runActiveController K h

/-- Performs a sequence of calls, first call first, and gives the final state. -/
def exec (K : Connectors H) (s : UAVSystem H) : List Op → UAVSystem H
  | [] => s
  | op :: ops => exec K (s.step K op).1 ops

/-- The call is a `setGoal` on a connector of the group. -/
def Op.setsGoalOn (K : Connectors H) (h : HardwareType) : Op → Bool
  | .setGoal c _ => decide (K.getHardwareType c = h)
  | _ => false

/-- Every entry of the active-controller map holds a connector of its own group. -/
def WellGrouped (K : Connectors H) (s : UAVSystem H) : Prop :=
  ∀ h c, s.active_controllers_ h = some c → K.getHardwareType c = h

end UAVSystem

/-- A sample hardware for evaluation: the hardware state counts the commands received;
every connector drives the UAV and each run writes one command. -/
def sampleConnectors : Connectors Nat :=
  { getHardwareType := fun _ => HardwareType.UAV
    run := fun _ _ _ hw => { status := ControllerStatus.Active, hardware := hw + 1, writes := 1 } }

/-- Sample initial connector states. -/
def sampleConnectorStates : (c : ConnectorT) → ConnectorState (GoalT c)
  | .PositionControllerDroneConnector =>
      { goal := ({ x := 0, y := 0, z := 0, yaw := 0 } : PositionYaw),
        status := ControllerStatus.NotEngaged }
  | .BuiltInVelocityControllerDroneConnector =>
      { goal := ({ x := 0, y := 0, z := 0, yaw := 0 } : VelocityYaw),
        status := ControllerStatus.NotEngaged }
  | .ManualRPYTControllerDroneConnector =>
      { goal := ({ } : EmptyGoal), status := ControllerStatus.NotEngaged }

/-- A freshly constructed sample system. -/
def sampleSystem : UAVSystem Nat :=
  UAVSystem.construct 0 sampleConnectorStates

/-- A sample velocity goal, the one of the tests. -/
def sampleVelocityGoal : VelocityYaw := { x := 1, y := 1, z := 1, yaw := 1 }

/-- The sample system after a velocity goal was set: the velocity connector is active
for the UAV. -/
def sampleEngaged : UAVSystem Nat :=
  (sampleSystem.setGoal sampleConnectors ConnectorT.BuiltInVelocityControllerDroneConnector
    sampleVelocityGoal).1

/-- A sample sequence of calls with no `setGoal` in it. -/
def sampleOpsWithoutSetGoal : List UAVSystem.Op :=
  [UAVSystem.Op.runActiveController HardwareType.UAV,
    UAVSystem.Op.abortController HardwareType.Arm,
    UAVSystem.Op.runActiveController HardwareType.Arm]

/-! ## Thrust-producing connectors -/

/-- Three-vector (`tf::Vector3`, `Eigen::Vector3d`). -/
structure Vec3 where
  x : ℚ
  y : ℚ
  z : ℚ
  deriving DecidableEq

namespace Vec3

/-- The zero vector. -/
def zero : Vec3 := { x := 0, y := 0, z := 0 }

/-- Sum of two vectors. -/
def add (a b : Vec3) : Vec3 := { x := a.x + b.x, y := a.y + b.y, z := a.z + b.z }

/-- Product of a vector with a scalar. -/
def scale (a : Vec3) (k : ℚ) : Vec3 := { x := a.x * k, y := a.y * k, z := a.z * k }

/-- Scalar product. -/
def dot (a b : Vec3) : ℚ := a.x * b.x + a.y * b.y + a.z * b.z

/-- Cross product `a.cross(b)`. -/
def cross (a b : Vec3) : Vec3 :=
  { x := a.y * b.z - a.z * b.y, y := a.z * b.x - a.x * b.z, z := a.x * b.y - a.y * b.x }

end Vec3

/-- A 3x3 matrix by rows (`Eigen::Matrix3d`). -/
structure Mat3 where
  r0 : Vec3
  r1 : Vec3
  r2 : Vec3

/-- Matrix times vector. -/
def Mat3.mulVec (M : Mat3) (v : Vec3) : Vec3 :=
  { x := M.r0.dot v, y := M.r1.dot v, z := M.r2.dot v }

/-- Library routines the connectors call, taken as parameters: the elementary functions
of `<cmath>`, the Cholesky solve `J.llt().solve(b)` of Eigen, and the product `a * b` and
quotient `a / b` of two `double` values as the processor delivers them (IEEE 754 rounds
the exact result to a `double`, so neither need be the exact product or quotient). -/
structure NumericLibrary where
  sin : ℚ → ℚ
  cos : ℚ → ℚ
  tan : ℚ → ℚ
  sqrt : ℚ → ℚ
  lltSolve : Mat3 → Vec3 → Vec3
  mul : ℚ → ℚ → ℚ
  div : ℚ → ℚ → ℚ

/-- A rigid transform (`tf::Transform`); the rotation is kept as the roll, pitch and
yaw it was built from. -/
structure Pose where
  rpy : Vec3
  origin : Vec3
  deriving DecidableEq

/-- The fields of `parsernode::common::quaddata` that the connectors read. -/
structure QuadData where
  localpos : Vec3
  linvel : Vec3
  linacc : Vec3
  rpydata : Vec3
  omega : Vec3
  deriving DecidableEq

/-- The message of `cmdrpyawratethrust` (`geometry_msgs::Quaternion`). -/
structure Quaternion where
  x : ℚ
  y : ℚ
  z : ℚ
  w : ℚ
  deriving DecidableEq

/-- One entry of the thrust-gain estimator buffer. -/
inductive EstimatorSample where
  | thrustCommand (cmd : ℚ)
  | sensorData (roll pitch accel_z : ℚ)
  deriving DecidableEq

/-- Modelled from the spec: the `ThrustGainEstimator` (its class is not among the
sources): a fixed-capacity buffer of recent samples plus a derived scalar gain.  The
rule that derives the gain from the buffer is left open by the spec and is the field
`fit` (new buffer and previous gain to new gain). -/
structure ThrustGainEstimator where
  buffer : List EstimatorSample
  capacity : Nat
  thrust_gain : ℚ
  fit : List EstimatorSample → ℚ → ℚ

namespace ThrustGainEstimator

/-- Appends a sample to a buffer of the given capacity, dropping the oldest sample when
the capacity is exceeded. -/
def push (capacity : Nat) (buffer : List EstimatorSample) (x : EstimatorSample) :
    List EstimatorSample :=
  if (buffer ++ [x]).length > capacity then (buffer ++ [x]).tail else buffer ++ [x]

/-- Modelled from the spec: `clearBuffer()` empties the buffer. -/
def clearBuffer (e : ThrustGainEstimator) : ThrustGainEstimator :=
  { e with buffer := [] }

/-- Modelled from the spec: `getThrustGain()` reads the derived gain. -/
def getThrustGain (e : ThrustGainEstimator) : ℚ :=
  e.thrust_gain

/-- Modelled from the spec: `addThrustCommand(cmd)` records a commanded thrust. -/
def addThrustCommand (e : ThrustGainEstimator) (cmd : ℚ) : ThrustGainEstimator :=
  { e with buffer := push e.capacity e.buffer (EstimatorSample.thrustCommand cmd) }

/-- Modelled from the spec: `addSensorData(roll, pitch, accel_z)` records a measurement
and derives the gain anew. -/
def addSensorData (e : ThrustGainEstimator) (roll pitch accel_z : ℚ) : ThrustGainEstimator :=
  { e with
    buffer := push e.capacity e.buffer (EstimatorSample.sensorData roll pitch accel_z)
    thrust_gain :=
      e.fit (push e.capacity e.buffer (EstimatorSample.sensorData roll pitch accel_z))
        e.thrust_gain }

end ThrustGainEstimator

/-- State of the backstepping controller (`QrotorBacksteppingState`). -/
structure QrotorBacksteppingState where
  pose : Pose
  v : Vec3
  w : Vec3
  thrust : ℚ
  thrust_dot : ℚ
  deriving DecidableEq

/-- Output of the backstepping controller (`QrotorBacksteppingControl`). -/
structure QrotorBacksteppingControl where
  thrust_ddot : ℚ
  torque : Vec3
  deriving DecidableEq

/-- The members of a `QrotorBacksteppingControllerConnector`; `goal` is the goal kept by
the base class, of type `G` (a shared pointer to a reference trajectory), and the
estimator is the one the connector refers to. -/
structure QrotorBacksteppingControllerConnector (G : Type) where
  goal : G
  thrust_gain_estimator_ : ThrustGainEstimator
  data_ : QuadData
  current_state_ : QrotorBacksteppingState
  t_0_ : ℚ
  previous_time_ : ℚ
  m_ : ℚ
  g_ : ℚ
  J_ : Mat3
  thrust_ : ℚ
  thrust_dot_ : ℚ
  thrust_cmd_ : ℚ
  roll_cmd_ : ℚ
  pitch_cmd_ : ℚ
  yaw_rate_cmd_ : ℚ
  omega_cmd_ : Vec3
  lb_ : Fin 4 → ℚ
  ub_ : Fin 4 → ℚ

namespace QrotorBacksteppingControllerConnector

variable {G : Type}

/-- Source function `QrotorBacksteppingControllerConnector::omegaToRpyDot`. -/
def omegaToRpyDot (L : NumericLibrary) (omega rpy : Vec3) : Vec3 :=
  let s_roll := L.sin rpy.x
  let c_roll := L.cos rpy.x
  let t_pitch := L.tan rpy.y
  let sec_pitch := L.sqrt (1 + t_pitch * t_pitch)
  let Mrpy : Mat3 :=
    { r0 := { x := 1, y := s_roll * t_pitch, z := c_roll * t_pitch }
      r1 := { x := 0, y := c_roll, z := -s_roll }
      r2 := { x := 0, y := s_roll * sec_pitch, z := c_roll * sec_pitch } }
  Mrpy.mulVec omega

/-- Source function `QrotorBacksteppingControllerConnector::extractSensorData`; `quad`
is what `getquaddata` delivers and `now` the clock reading; gives the return value, the
`sensor_data` written and the new state. -/
def extractSensorData (s : QrotorBacksteppingControllerConnector G) (quad : QuadData) (now : ℚ) :
    Bool × (ℚ × QrotorBacksteppingState) × QrotorBacksteppingControllerConnector G :=
  let current_time := now - s.t_0_
  let current_state : QrotorBacksteppingState :=
    { pose := { rpy := quad.rpydata, origin := quad.localpos }
      v := quad.linvel
      w := quad.omega
      thrust := s.thrust_
      thrust_dot := s.thrust_dot_ }
  (true, (current_time, current_state),
    { s with
      data_ := quad
      current_state_ := current_state
      thrust_gain_estimator_ :=
        s.thrust_gain_estimator_.addSensorData quad.rpydata.x quad.rpydata.y quad.linacc.z })

/-- The roll, pitch and yaw-rate values of `sendControllerCommands` before the bounds
are applied (lines 40 to 66): `roll_cmd_` and `pitch_cmd_` integrated over `dt`, and
the yaw rate `rpydot_cmd[2]`. -/
def integratedCommands (L : NumericLibrary) (s : QrotorBacksteppingControllerConnector G)
    (control : QrotorBacksteppingControl) (now : ℚ) : Vec3 :=
  let dt := now - s.previous_time_
  let omega_dot_cmd :=
    L.lltSolve s.J_ (((s.J_.mulVec s.data_.omega).cross s.data_.omega).add control.torque)
  let omega_cmd := s.omega_cmd_.add (omega_dot_cmd.scale dt)
  let rpydot_cmd := omegaToRpyDot L omega_cmd s.data_.rpydata
  { x := s.roll_cmd_ + rpydot_cmd.x * dt, y := s.pitch_cmd_ + rpydot_cmd.y * dt, z := rpydot_cmd.z }

/-- Source function `QrotorBacksteppingControllerConnector::sendControllerCommands`;
`now` is the clock reading; gives the new state and the messages passed to
`cmdrpyawratethrust`.  The thrust bound (lines 84 to 88) tests the quotient
`thrust_ / m_` against the products `lb_(3) * g_` and `ub_(3) * g_` and assigns the
products `m_ * lb_(3) * g_` and `m_ * ub_(3) * g_`; these and the quotient of the thrust
command (lines 90 to 91) are the products and quotients of the library `L`. -/
def sendControllerCommands (L : NumericLibrary) (s : QrotorBacksteppingControllerConnector G)
    (control : QrotorBacksteppingControl) (now : ℚ) :
    QrotorBacksteppingControllerConnector G × List Quaternion :=
  let Thrust_ddot := control.thrust_ddot
  let Torque := control.torque
  let current_time := now
  let dt := current_time - s.previous_time_
  let thrust_dot := s.thrust_dot_ + Thrust_ddot * dt
  let thrust := s.thrust_ + thrust_dot * dt
  let current_omega := s.data_.omega
  let current_rpy := s.data_.rpydata
  let omega_dot_cmd :=
    L.lltSolve s.J_ (((s.J_.mulVec current_omega).cross current_omega).add Torque)
  let omega_cmd := s.omega_cmd_.add (omega_dot_cmd.scale dt)
  let rpydot_cmd := omegaToRpyDot L omega_cmd current_rpy
  let roll_cmd := s.roll_cmd_ + rpydot_cmd.x * dt
  let pitch_cmd := s.pitch_cmd_ + rpydot_cmd.y * dt
  let yaw_rate_cmd := rpydot_cmd.z
  let roll_cmd := if roll_cmd < s.lb_ 0 then s.lb_ 0
    else if roll_cmd > s.ub_ 0 then s.ub_ 0 else roll_cmd
  let pitch_cmd := if pitch_cmd < s.lb_ 1 then s.lb_ 1
    else if pitch_cmd > s.ub_ 1 then s.ub_ 1 else pitch_cmd
  let yaw_rate_cmd := if yaw_rate_cmd < s.lb_ 2 then s.lb_ 2
    else if yaw_rate_cmd > s.ub_ 2 then s.ub_ 2 else yaw_rate_cmd
  let thrust := if L.div thrust s.m_ < L.mul (s.lb_ 3) s.g_ then
      L.mul (L.mul s.m_ (s.lb_ 3)) s.g_
    else if L.div thrust s.m_ > L.mul (s.ub_ 3) s.g_ then L.mul (L.mul s.m_ (s.ub_ 3)) s.g_
    else thrust
  let thrust_cmd := L.div thrust (L.mul s.m_ s.thrust_gain_estimator_.getThrustGain)
  let rpyt_msg : Quaternion := { x := roll_cmd, y := pitch_cmd, z := yaw_rate_cmd, w := thrust_cmd }
  ({ s with
      previous_time_ := current_time
      thrust_dot_ := thrust_dot
      thrust_ := thrust
      omega_cmd_ := omega_cmd
      roll_cmd_ := roll_cmd
      pitch_cmd_ := pitch_cmd
      yaw_rate_cmd_ := yaw_rate_cmd
      thrust_cmd_ := thrust_cmd
      thrust_gain_estimator_ := s.thrust_gain_estimator_.addThrustCommand rpyt_msg.w },
    [rpyt_msg])

/-- Modelled from the spec: `BaseClass::setGoal`, the `setGoal` of the connector base
class, which is not among the sources: it replaces the goal. -/
def baseSetGoal (s : QrotorBacksteppingControllerConnector G) (goal : G) :
    QrotorBacksteppingControllerConnector G :=
  { s with goal := goal }

/-- Source function `QrotorBacksteppingControllerConnector::setGoal`; `now0` and `now1`
are the readings of its two calls of the clock, in order. -/
def setGoal (s : QrotorBacksteppingControllerConnector G) (goal : G) (now0 now1 : ℚ) :
    QrotorBacksteppingControllerConnector G :=
  { s.baseSetGoal goal with
    t_0_ := now0
    previous_time_ := now1
    thrust_ := (s.baseSetGoal goal).m_ * (s.baseSetGoal goal).g_
    thrust_dot_ := 0
    roll_cmd_ := 0
    pitch_cmd_ := 0
    omega_cmd_ := Vec3.zero
    lb_ := ![-0.785, -0.785, -1.5708, 0.8]
    ub_ := ![0.785, 0.785, 1.5708, 1.2]
    thrust_gain_estimator_ := (s.baseSetGoal goal).thrust_gain_estimator_.clearBuffer }

/-- Modelled from the spec: `run()` of the base class, which is not among the sources:
extract the sensor data, give up without a hardware write if that fails, else let the
controller map sensor data and goal to a control and send it.  `controller` is the
backstepping law; `now_extract` and `now_send` are the clock readings of the two
steps. -/
def run (L : NumericLibrary)
    (controller : ℚ × QrotorBacksteppingState → G → QrotorBacksteppingControl)
    (s : QrotorBacksteppingControllerConnector G) (quad : QuadData) (now_extract now_send : ℚ) :
    QrotorBacksteppingControllerConnector G × List Quaternion :=
  match s.extractSensorData quad now_extract with
  | (true, sensor_data, s1) => s1.sendControllerCommands L (controller sensor_data s1.goal) now_send
  | (false, _, s1) => (s1, [])

end QrotorBacksteppingControllerConnector

/-- The members of an `RPYTRelativePoseVisualServoingConnector` that its member functions
touch: the goal kept by the base class, the estimator it refers to and the thrust gain
`kt` in the configuration of its private reference controller. -/
structure RPYTRelativePoseVisualServoingConnector where
  goal : PositionYaw
  thrust_gain_estimator_ : ThrustGainEstimator
  kt : ℚ

namespace RPYTRelativePoseVisualServoingConnector

/-- Modelled from the spec: `BaseClass::setGoal`, the `setGoal` of the connector base
class, which is not among the sources: it replaces the goal. -/
def baseSetGoal (s : RPYTRelativePoseVisualServoingConnector) (goal : PositionYaw) :
    RPYTRelativePoseVisualServoingConnector :=
  { s with goal := goal }

/-- Source function `RPYTRelativePoseVisualServoingConnector::setGoal`. -/
def setGoal (s : RPYTRelativePoseVisualServoingConnector) (goal : PositionYaw) :
    RPYTRelativePoseVisualServoingConnector :=
  { s.baseSetGoal goal with
    thrust_gain_estimator_ := (s.baseSetGoal goal).thrust_gain_estimator_.clearBuffer }

end RPYTRelativePoseVisualServoingConnector

/-- Saturation in the words of the spec: `out` is `v` saturated to `[lo, hi]` when it is
`v` itself for `v` inside the interval, `lo` for `v` below it and `hi` for `v` above
it. -/
def SaturatedTo (out v lo hi : ℚ) : Prop :=
  (lo ≤ v ∧ v ≤ hi → out = v) ∧ (v < lo → out = lo) ∧ (hi < v → out = hi)

instance (out v lo hi : ℚ) : Decidable (SaturatedTo out v lo hi) := by
  unfold SaturatedTo
  infer_instance

/-- A sample numeric library for evaluation (the values of the elementary functions at
0, the identity for the linear solve, and the exact product and quotient). -/
def sampleLibrary : NumericLibrary :=
  { sin := fun _ => 0
    cos := fun _ => 1
    tan := fun _ => 0
    sqrt := fun _ => 1
    lltSolve := fun _ b => b
    mul := fun a b => a * b
    div := fun a b => a / b }

/-- A sample estimator: capacity 2, gain 1, and a fit that keeps the gain. -/
def sampleEstimator (buffer : List EstimatorSample) : ThrustGainEstimator :=
  { buffer := buffer, capacity := 2, thrust_gain := 1, fit := fun _ gain => gain }

/-- A sample connector in the middle of a maneuver: mass 2, gravity 10, unit inertia,
level attitude, and the integrator fields as given. -/
def sampleQrotor (thrust thrust_dot roll pitch : ℚ) (omega_cmd : Vec3)
    (buffer : List EstimatorSample) : QrotorBacksteppingControllerConnector Nat :=
  { goal := 0
    thrust_gain_estimator_ := sampleEstimator buffer
    data_ :=
      { localpos := Vec3.zero, linvel := Vec3.zero, linacc := Vec3.zero, rpydata := Vec3.zero,
        omega := Vec3.zero }
    current_state_ :=
      { pose := { rpy := Vec3.zero, origin := Vec3.zero }, v := Vec3.zero, w := Vec3.zero,
        thrust := thrust, thrust_dot := thrust_dot }
    t_0_ := 0
    previous_time_ := 0
    m_ := 2
    g_ := 10
    J_ := { r0 := { x := 1, y := 0, z := 0 }, r1 := { x := 0, y := 1, z := 0 },
            r2 := { x := 0, y := 0, z := 1 } }
    thrust_ := thrust
    thrust_dot_ := thrust_dot
    thrust_cmd_ := 0
    roll_cmd_ := roll
    pitch_cmd_ := pitch
    yaw_rate_cmd_ := 0
    omega_cmd_ := omega_cmd
    lb_ := ![-0.785, -0.785, -1.5708, 0.8]
    ub_ := ![0.785, 0.785, 1.5708, 1.2] }

/-- Sample sensor data. -/
def sampleQuadData : QuadData :=
  { localpos := { x := 1, y := 2, z := 3 }, linvel := Vec3.zero,
    linacc := { x := 0, y := 0, z := 10 }, rpydata := Vec3.zero, omega := Vec3.zero }

/-- A sample control law: a constant torque about every axis. -/
def sampleController (_sensor : ℚ × QrotorBacksteppingState) (_goal : Nat) :
    QrotorBacksteppingControl :=
  { thrust_ddot := 1, torque := { x := 1, y := -1, z := 2 } }

/-- A sample connector holding integrator values and a buffered sample of an earlier
maneuver. -/
def sampleQrotorStale : QrotorBacksteppingControllerConnector Nat :=
  sampleQrotor 30 5 (3 / 10) (-1 / 5) { x := 1, y := 1, z := 1 }
    [EstimatorSample.thrustCommand 7]

/-- A sample connector of the same configuration with its integrators at rest. -/
def sampleQrotorFresh : QrotorBacksteppingControllerConnector Nat :=
  sampleQrotor 20 0 0 0 Vec3.zero []

/-- A sample control that drives the roll above its bound, the yaw rate below its bound
and leaves the pitch inside. -/
def sampleControl : QrotorBacksteppingControl :=
  { thrust_ddot := 1, torque := { x := 1, y := -1, z := -20 } }

/-! ## Further connector functions and the reference trajectory -/

namespace QrotorBacksteppingControllerConnector

variable {G : Type}

end QrotorBacksteppingControllerConnector

/-- Velocity and yaw rate (`VelocityYawRate`). -/
structure VelocityYawRate where
  x : ℚ
  y : ℚ
  z : ℚ
  yaw_rate : ℚ
  deriving DecidableEq

/-- Roll, pitch, yaw rate and thrust control (`RollPitchYawRateThrust`). -/
structure RollPitchYawRateThrust where
  r : ℚ
  p : ℚ
  y : ℚ
  t : ℚ
  deriving DecidableEq

/-- Helpers of the visual-servoing base connector that `extractSensorData` calls and
that are not among the sources, taken as parameters. -/
structure VisualServoingFrames where
  getTrackingTransformRotationCompensatedQuadFrame : Pose → Pose
  getBodyFrameRotation : Pose

namespace RPYTRelativePoseVisualServoingConnector

/-- Source function `RPYTRelativePoseVisualServoingConnector::extractSensorData`.
`quad_data` is what `getquaddata` delivers; `tracking` is the outcome of
`tracker_.getTrackingVector`: `none` when it returns false, else the pose it wrote;
`sensor_data` is the content of the output argument at the call.  Gives the return
value, the content of the output argument after the call, the new state and the
messages written to the hardware (the function has no call that writes). -/
def extractSensorData (F : VisualServoingFrames) (s : RPYTRelativePoseVisualServoingConnector)
    (quad_data : QuadData) (tracking : Option Pose)
    (sensor_data : Pose × Pose × VelocityYawRate) :
    Bool × (Pose × Pose × VelocityYawRate) × RPYTRelativePoseVisualServoingConnector
      × List Quaternion :=
  match tracking with
  | none => (false, sensor_data, s, [])
  | some object_pose_cam =>
    let tracking_pose := F.getTrackingTransformRotationCompensatedQuadFrame object_pose_cam
    let estimator := s.thrust_gain_estimator_.addSensorData quad_data.rpydata.x
      quad_data.rpydata.y quad_data.linacc.z
    (true,
      (F.getBodyFrameRotation, tracking_pose,
        { x := quad_data.linvel.x, y := quad_data.linvel.y, z := quad_data.linvel.z,
          yaw_rate := quad_data.omega.z }),
      { s with thrust_gain_estimator_ := estimator, kt := estimator.getThrustGain },
      [])

/-- Source function `RPYTRelativePoseVisualServoingConnector::sendControllerCommands`;
gives the new state and the messages passed to `cmdrpyawratethrust`. -/
def sendControllerCommands (s : RPYTRelativePoseVisualServoingConnector)
    (controls : RollPitchYawRateThrust) :
    RPYTRelativePoseVisualServoingConnector × List Quaternion :=
  let rpyt_msg : Quaternion :=
    { x := controls.r, y := controls.p, z := controls.y, w := controls.t }
  ({ s with thrust_gain_estimator_ := s.thrust_gain_estimator_.addThrustCommand controls.t },
    [rpyt_msg])

end RPYTRelativePoseVisualServoingConnector

/-- The member of a `BuiltInPoseControllerArmConnector` that its member functions read:
the goal pose kept by the base class.  Poses (`tf::Transform`, `Eigen::Matrix4d`) are
all of type `Pose`, so the conversions between them are the identity. -/
structure BuiltInPoseControllerArmConnector where
  goal : Pose
  deriving DecidableEq

namespace BuiltInPoseControllerArmConnector

/-- Source function `BuiltInPoseControllerArmConnector::extractSensorData`;
`end_effector_transform` is what `arm_hardware_.getEndEffectorTransform()` delivers;
gives the return value and the `sensor_data` written. -/
def extractSensorData (_s : BuiltInPoseControllerArmConnector) (end_effector_transform : Pose) :
    Bool × Pose :=
  (true, end_effector_transform)

/-- Source function `BuiltInPoseControllerArmConnector::sendControllerCommands`; gives the
new state and the poses passed to `arm_hardware_.setEndEffectorPose`.  The body of the
source function is a comment, so the pose is not used. -/
def sendControllerCommands (s : BuiltInPoseControllerArmConnector) (_pose : Pose) :
    BuiltInPoseControllerArmConnector × List Pose :=
  (s, [])

/-- Source function `BuiltInPoseControllerArmConnector::initialize` (renamed, the source
name being reserved); gives the new state and the poses passed to
`arm_hardware_.setEndEffectorPose`. -/
def initializeConnector (s : BuiltInPoseControllerArmConnector) :
    BuiltInPoseControllerArmConnector × List Pose :=
  let goal_pose := s.goal
  (s, [goal_pose])

/-- Modelled from the spec: `run()` of the base class, which is not among the sources:
extract the sensor data, give up without a hardware write if that fails, else let the
controller map sensor data and goal to a control and send it.  Gives the return value
of `run()`, the new state and the poses written to the arm. -/
def run (controller : Pose → Pose → Pose) (s : BuiltInPoseControllerArmConnector)
    (end_effector_transform : Pose) : Bool × BuiltInPoseControllerArmConnector × List Pose :=
  match s.extractSensorData end_effector_transform with
  | (true, sensor_data) =>
    (true, s.sendControllerCommands (controller sensor_data s.goal))
  | (false, _) => (false, s, [])

end BuiltInPoseControllerArmConnector

/-- Class `ReferenceTrajectory<StateT, ControlT>`: the pure virtual `atTime` is a
field; it either returns a state and a control or throws an exception of type `E`. -/
structure ReferenceTrajectory (StateT ControlT E : Type) where
  atTime : ℚ → Except E (StateT × ControlT)

/-- Source function `ReferenceTrajectory::goal`, the default implementation:
`return atTime(t).first;`, an exception of `atTime` passing through. -/
def ReferenceTrajectory.goal {StateT ControlT E : Type}
    (r : ReferenceTrajectory StateT ControlT E) (t : ℚ) : Except E StateT :=
  match r.atTime t with
  | Except.ok p => Except.ok p.1
  | Except.error e => Except.error e

/-- Sample frames for evaluation: the tracked pose is taken as it is and the body frame
is level. -/
def sampleFrames : VisualServoingFrames :=
  { getTrackingTransformRotationCompensatedQuadFrame := fun p => p
    getBodyFrameRotation := { rpy := Vec3.zero, origin := Vec3.zero } }

/-- A sample visual-servoing connector with one buffered sample. -/
def sampleRPYT : RPYTRelativePoseVisualServoingConnector :=
  { goal := { x := 1, y := 1, z := 1, yaw := 1 }
    thrust_gain_estimator_ :=
      { buffer := [EstimatorSample.thrustCommand 7], capacity := 2, thrust_gain := 1,
        fit := fun _ gain => gain + 1 }
    kt := 5 }

/-- A sample content of the output argument of `extractSensorData`. -/
def sampleSensorData : Pose × Pose × VelocityYawRate :=
  ({ rpy := Vec3.zero, origin := Vec3.zero },
    { rpy := Vec3.zero, origin := { x := 4, y := 5, z := 6 } },
    { x := 7, y := 8, z := 9, yaw_rate := 0 })

/-- A sample pose. -/
def samplePose : Pose :=
  { rpy := { x := 0, y := 0, z := 1 }, origin := { x := 1, y := 2, z := 3 } }

/-- A sample arm connector whose goal is the sample pose. -/
def sampleArm : BuiltInPoseControllerArmConnector :=
  { goal := samplePose }

/-- A sample arm controller: it commands the goal pose. -/
def sampleArmController (_sensor goal : Pose) : Pose :=
  goal

/-! ## Guards and internal actions of the flight-mode state machine

The functors of the state machine (`uav_states_actions.h`) are not among the sources;
their tests are.  Each definition below follows the specification and, where a test
asserts the outcome, the test. -/

/-- The flight modes of the state machine. -/
inductive FlightState where
  | Landed
  | Takeoff
  | Hovering
  | Land
  | PositionControl
  | VelocityControl
  | ManualControl
  deriving DecidableEq

/-- The events an action can raise on the state machine (what the tests read back with
`getProcessEventTypeId`). -/
inductive FlightEvent where
  | Takeoff
  | Land
  | Abort
  | ManualControlEvent
  | Completed
  deriving DecidableEq

/-- The fire-and-forget commands of `UAVSystem::takeOff` and `UAVSystem::land`. -/
inductive FlightCommand where
  | takeoff
  | land
  deriving DecidableEq

/-- The fields of `parsernode::common::quaddata` that the guards and internal actions
read: the battery percentage and the switch that is off while the pilot has taken over
(`flowControl(false)` in the tests). -/
structure QuadStatus where
  batterypercent : ℚ
  rc_sdk_control_switch : Bool
  deriving DecidableEq

/-- Modelled from the spec: the configured bounds that the guards and internal actions
compare against (the configuration messages are not among the sources): the minimum
battery percentage for takeoff, the low-battery threshold while hovering, the maximum
goal velocity (`set_max_goal_velocity` in the tests) and the bound on the altitude or
range of a position goal. -/
structure GuardConfig where
  minimum_battery_percent : ℚ
  low_battery_percent : ℚ
  max_goal_velocity : ℚ
  max_goal_extent : ℚ

/-- Modelled from the spec: the takeoff guard `TakeoffGuard`, which is not among the
sources: it rejects when the battery percentage is below the configured minimum. -/
def TakeoffGuard (cfg : GuardConfig) (data : QuadStatus) : Bool :=
  if data.batterypercent < cfg.minimum_battery_percent then false else true

/-- Modelled from the spec: the row Landed, Takeoff of the transition table, which is
not among the sources: under the guard the machine commands a takeoff and enters
`Takeoff`; else the transition does not occur.  Gives the next state and the commands
issued. -/
def landedOnTakeoff (cfg : GuardConfig) (data : QuadStatus) : FlightState × List FlightCommand :=
  if TakeoffGuard cfg data then (FlightState.Takeoff, [FlightCommand.takeoff])
  else (FlightState.Landed, [])

/-- Square of the magnitude of the velocity of a goal. -/
def VelocityYaw.normSq (goal : VelocityYaw) : ℚ :=
  goal.x * goal.x + goal.y * goal.y + goal.z * goal.z

/-- Modelled from the spec: the velocity guard `GuardVelocityGoal`, which is not among
the sources: it rejects goals whose magnitude exceeds the configured maximum velocity.
The magnitude is compared through its square, a square root not being rational: the
magnitude exceeds `max` when `max` is negative or the square of `max` is below the
square of the magnitude. -/
def GuardVelocityGoal (cfg : GuardConfig) (goal : VelocityYaw) : Bool :=
  if cfg.max_goal_velocity < 0 ∨ cfg.max_goal_velocity * cfg.max_goal_velocity < goal.normSq
  then false else true

/-- Modelled from the spec: the position guard `ReachingGoalGuard`, which is not among
the sources: it rejects goals whose target exceeds the configured bound.  The bounded
quantity of the target, its altitude or its range, is the argument `extent`. -/
def ReachingGoalGuard (cfg : GuardConfig) (extent : PositionYaw → ℚ) (goal : PositionYaw) :
    Bool :=
  if extent goal > cfg.max_goal_extent then false else true

/-- The altitude of the target of a position goal. -/
def PositionYaw.altitude (goal : PositionYaw) : ℚ :=
  goal.z

/-- Modelled from the spec: the row of the transition table for a position goal event,
which is not among the sources: under the guard the goal is set on the position
connector, which `UAVSystem::setGoal` makes the active one, and the machine enters
`PositionControl`; else the transition does not occur.  Gives the next state, the
system and the events of the call. -/
def onPositionGoal {H : Type} (K : Connectors H) (cfg : GuardConfig)
    (extent : PositionYaw → ℚ) (state : FlightState) (system : UAVSystem H)
    (goal : PositionYaw) : FlightState × UAVSystem H × List Event :=
  if ReachingGoalGuard cfg extent goal then
    (FlightState.PositionControl,
      system.setGoal K ConnectorT.PositionControllerDroneConnector goal)
  else
    (state, system, [])

/-- Modelled from the spec: the internal action of `Hovering`, which is not among the
sources.  Under pilot override it raises `ManualControlEvent`
(`HoveringFunctorTests.ManualControlInternalActionTest`); else it raises `Abort` when
the battery percentage is below the low-battery threshold
(`HoveringFunctorTests.CallOperatorFunction`) and nothing otherwise. -/
def HoveringInternalActionFunctor (cfg : GuardConfig) (data : QuadStatus)
    (_status : ControllerStatus) : Bool × Option FlightEvent :=
  if data.rc_sdk_control_switch = false then (false, some FlightEvent.ManualControlEvent)
  else if data.batterypercent < cfg.low_battery_percent then (false, some FlightEvent.Abort)
  else (true, none)

/-- A sample configuration: takeoff needs 40 percent of battery, hovering aborts below
40 percent, goals may ask for a speed of 2 and an altitude of 100. -/
def sampleGuardConfig : GuardConfig :=
  { minimum_battery_percent := 40, low_battery_percent := 40, max_goal_velocity := 2,
    max_goal_extent := 100 }

/-- Sample telemetry with the given battery percentage, the pilot not having taken
over. -/
def sampleBattery (percent : ℚ) : QuadStatus :=
  { batterypercent := percent, rc_sdk_control_switch := true }

/-- The position goal the tests accept. -/
def sampleGoalNear : PositionYaw := { x := 1, y := 1, z := 1, yaw := 1 }

/-- The position goal the tests reject. -/
def sampleGoalFar : PositionYaw := { x := 1, y := 1, z := 1000, yaw := 1 }

/-! ## The two steps of `runActiveController` under concurrent execution

Critical sections on the mutex of one group exclude each other, so under concurrent
execution a call of `runActiveController` is two steps: the read of the active
reference, made without the lock, and the section under the lock.  Calls of other
threads can take place between the two. -/

namespace UAVSystem

variable {H : Type}

/-- Lines 192 and 193 of `UAVSystem::runActiveController`: the active reference is read
into `active_controller`; no lock is held. -/
def runActiveController_read (s : UAVSystem H) (hardware_type : HardwareType) :
    Option ConnectorT :=
  s.active_controllers_ hardware_type

/-- Lines 194 to 197 of `UAVSystem::runActiveController`: if the reference read before
is not `nullptr`, the lock of the group is taken and `run()` is called on that
reference; `s` is the system at the time the lock is obtained. -/
def runActiveController_locked (K : Connectors H) (s : UAVSystem H)
    (hardware_type : HardwareType) (active_controller : Option ConnectorT) :
    UAVSystem H × List Event :=
  match active_controller with
  | none => (s, [])
  | some active_controller =>
    let r := K.run active_controller (s.connectors active_controller).goal
      (s.connectors active_controller).status s.drone_hardware_
    ({ s with
        drone_hardware_ := r.hardware
        connectors := Function.update s.connectors active_controller
          { goal := (s.connectors active_controller).goal, status := r.status } },
      [Event.lock hardware_type, Event.run active_controller]
        ++ List.replicate r.writes (Event.hardwareWrite active_controller)
        ++ [Event.unlock hardware_type])

/-- A schedule of two threads: the first thread calls `runActiveController` and has read
the active reference of the group; the second thread then performs the call `op` in
full; the first thread then obtains the lock and goes on.  Gives the system at the time
the first thread obtains the lock, and the outcome of the first thread. -/
def runActiveControllerInterleaved (K : Connectors H) (s : UAVSystem H)
    (hardware_type : HardwareType) (op : Op) :
    UAVSystem H × (UAVSystem H × List Event) :=
  let active_controller := s.runActiveController_read hardware_type
  let s1 := (s.step K op).1
  (s1, s1.runActiveController_locked K hardware_type active_controller)

end UAVSystem

/-- A sample position goal. -/
def samplePositionGoal : PositionYaw := { x := 1, y := 1, z := 1, yaw := 1 }

namespace QrotorBacksteppingControllerConnector

variable {G : Type}

/-- A sequence of `sendControllerCommands` calls, first call first, each with its
control and its clock reading; gives the state after the last call. -/
def sendAll (L : NumericLibrary) (s : QrotorBacksteppingControllerConnector G) :
    List (QrotorBacksteppingControl × ℚ) → QrotorBacksteppingControllerConnector G
  | [] => s
  | call :: calls => sendAll L (s.sendControllerCommands L call.1 call.2).1 calls

end QrotorBacksteppingControllerConnector

/-! ## Rounding of `double` products and quotients

IEEE 754 binary64 arithmetic delivers the exact result rounded to the nearest number with
53 significant bits, a tie going to the one whose last bit is even.  The exponent is not
bounded here: overflow, underflow and NaN are not modelled. -/

/-- The spacing of the `double` values around `q`: `2 ^ (e - 52)` for
`2 ^ e ≤ |q| < 2 ^ (e + 1)`. -/
def doubleSpacing (q : ℚ) : ℚ :=
  (2 : ℚ) ^ (Int.log 2 |q| - 52)

/-- The `double` nearest to `q`, a tie going to the even multiple of the spacing. -/
def roundDouble (q : ℚ) : ℚ :=
  let n : ℤ := ⌊q / doubleSpacing q⌋
  let rest : ℚ := q / doubleSpacing q - n
  if rest < 1 / 2 then n * doubleSpacing q
  else if 1 / 2 < rest then (n + 1) * doubleSpacing q
  else if n % 2 = 0 then n * doubleSpacing q
  else (n + 1) * doubleSpacing q

/-- The products and quotients of the library have a relative error of at most `ε`
(`ε = 0`: they are exact; IEEE 754 `double` arithmetic: `ε = 2 ^ (-53)`). -/
def NumericLibrary.RoundsWithin (L : NumericLibrary) (ε : ℚ) : Prop :=
  (∀ a b, |L.mul a b - a * b| ≤ ε * |a * b|) ∧
    (∀ a b, |L.div a b - a / b| ≤ ε * |a / b|)

/-- The `double` written `0.1`. -/
def double_0_1 : ℚ := 3602879701896397 / 36028797018963968

/-- The `double` written `0.8`. -/
def double_0_8 : ℚ := 3602879701896397 / 4503599627370496

/-- The `double` written `1.2`. -/
def double_1_2 : ℚ := 5404319552844595 / 4503599627370496

/-- The `double` written `8.4`. -/
def double_8_4 : ℚ := 4728779608739021 / 562949953421312

/-- The `double` written `12.6`. -/
def double_12_6 : ℚ := 7093169413108531 / 562949953421312

/-- How a run of the embedded `getTrajectory` can fail. -/
inductive LoopError where
  | outOfBounds
  | outOfFuel
  deriving DecidableEq

/-- Read of entry `k` of a vector (`v[k]`). -/
def readAt {α : Type} (v : List α) (k : Nat) : Except LoopError α :=
  match v[k]? with
  | some a => Except.ok a
  | none => Except.error LoopError.outOfBounds

/-- The pose of a `gcop_comm::State`: the translation, and the rotation kept as the
roll, pitch and yaw that `tf::createQuaternionFromRPY` is given. -/
structure gcop_comm.BasePose where
  translation : Vec3
  rotation : Vec3
  deriving DecidableEq

/-- The twist of a `gcop_comm::State`, of which the source sets the linear part. -/
structure gcop_comm.BaseTwist where
  linear : Vec3
  deriving DecidableEq

/-- The fields of a `gcop_comm::State` that the source sets. -/
structure gcop_comm.State where
  basepose : gcop_comm.BasePose
  basetwist : gcop_comm.BaseTwist
  statevector : List ℚ
  deriving DecidableEq

/-- A `gcop_comm::Ctrl`: `ctrlvec k` is the value assigned to `ctrlvec[k]`, and `none`
for an entry that has not been assigned.  The message type is not among the sources, so
no size of `ctrlvec` is fixed here. -/
structure gcop_comm.Ctrl where
  ctrlvec : Nat → Option ℚ

/-- The fields of a `gcop_comm::CtrlTraj` that the source sets. -/
structure gcop_comm.CtrlTraj where
  N : Nat
  statemsg : List gcop_comm.State
  ctrl : List gcop_comm.Ctrl

namespace MPCTrajectoryVisualizer

/-- Lines 41 to 52 of `getTrajectory`: the state message built from `x`. -/
def stateMessage (x : List ℚ) : Except LoopError gcop_comm.State := do
  let x0 ← readAt x 0
  let x1 ← readAt x 1
  let x2 ← readAt x 2
  let x3 ← readAt x 3
  let x4 ← readAt x 4
  let x5 ← readAt x 5
  let x6 ← readAt x 6
  let x7 ← readAt x 7
  let x8 ← readAt x 8
  let x15 ← readAt x 15
  let x16 ← readAt x 16
  let x17 ← readAt x 17
  let x18 ← readAt x 18
  pure
    { basepose :=
        { translation := { x := x0, y := x1, z := x2 }
          rotation := { x := x3, y := x4, z := x5 } }
      basetwist := { linear := { x := x6, y := x7, z := x8 } }
      statevector := [x15, x16, x17, x18] }

/-- Lines 55 to 62 of `getTrajectory`: the control message built from the state `x` and
the control `u`, the assignments to `ctrlvec` in the order of the source. -/
def controlMessage (x u : List ℚ) : Except LoopError gcop_comm.Ctrl := do
  let thrust ← readAt u 0
  let ctrlvec : Nat → Option ℚ := Function.update (fun _ => none) 0 (some thrust)
  let x12 ← readAt x 12
  let ctrlvec := Function.update ctrlvec 1 (some x12)
  let x13 ← readAt x 13
  let ctrlvec := Function.update ctrlvec 2 (some x13)
  let x14 ← readAt x 14
  let ctrlvec := Function.update ctrlvec 3 (some x14)
  let x19 ← readAt x 19
  let ctrlvec := Function.update ctrlvec 4 (some x19)
  let x20 ← readAt x 20
  let ctrlvec := Function.update ctrlvec 4 (some x20)
  pure { ctrlvec := ctrlvec }

/-- The loop of `getTrajectory` (lines 39 to 65) from counter `i` on, with the trajectory
built so far. -/
def getTrajectoryLoop (xs us : List (List ℚ)) (skip_segments : Nat) :
    Nat → Nat → gcop_comm.CtrlTraj → Except LoopError gcop_comm.CtrlTraj
  | 0, i, control_trajectory =>
    if i < control_trajectory.N + 1 then Except.error LoopError.outOfFuel
    else Except.ok control_trajectory
  | fuel + 1, i, control_trajectory =>
    if i < control_trajectory.N + 1 then do
      let x ← readAt xs i
      let state ← stateMessage x
      let control_trajectory : gcop_comm.CtrlTraj :=
        { control_trajectory with statemsg := control_trajectory.statemsg ++ [state] }
      if i < control_trajectory.N then do
        let u ← readAt us i
        let control ← controlMessage x u
        getTrajectoryLoop xs us skip_segments fuel (i + skip_segments)
          { control_trajectory with ctrl := control_trajectory.ctrl ++ [control] }
      else
        getTrajectoryLoop xs us skip_segments fuel (i + skip_segments) control_trajectory
    else Except.ok control_trajectory

/-- Source function `MPCTrajectoryVisualizer::getTrajectory`, run on the given fuel;
`skip_segments` is taken non-negative. -/
def getTrajectory (xs us : List (List ℚ)) (skip_segments : Nat) (fuel : Nat) :
    Except LoopError gcop_comm.CtrlTraj :=
  getTrajectoryLoop xs us skip_segments fuel 0 { N := us.length, statemsg := [], ctrl := [] }

/-- The counter values `i`, `i + s`, `i + 2 s`, ... that are at most `N`, in order: those
for which the loop builds a state message. -/
def stateIndices (s N i : Nat) : List Nat :=
  (List.range ((N + s - i) / s)).map (fun k => i + k * s)

/-- The counter values `i`, `i + s`, `i + 2 s`, ... that are below `N`, in order: those
for which the loop builds a control message. -/
def controlIndices (s N i : Nat) : List Nat :=
  (List.range ((N + (s - 1) - i) / s)).map (fun k => i + k * s)

end MPCTrajectoryVisualizer

/-- A sample MPC state whose entry `k` holds `k`, for `k` from 0 to 20. -/
def sampleMPCState : List ℚ :=
  [0, 1, 2, 3, 4, 5, 6, 7, 8, 9, 10, 11, 12, 13, 14, 15, 16, 17, 18, 19, 20]

/-- A sample MPC control whose thrust is 100. -/
def sampleMPCControl : List ℚ :=
  [100, 0, 0, 0]

/-- A sample trajectory of five states and four controls. -/
def sampleMPCStates : List (List ℚ) :=
  [sampleMPCState, sampleMPCState, sampleMPCState, sampleMPCState, sampleMPCState]

/-- The controls of the sample trajectory. -/
def sampleMPCControls : List (List ℚ) :=
  [sampleMPCControl, sampleMPCControl, sampleMPCControl, sampleMPCControl]

namespace UAVSystem

variable {H : Type}

theorem construct_wellGrouped (K : Connectors H) (hw : H)
    (conn : (c : ConnectorT) → ConnectorState (GoalT c)) :
    WellGrouped K (construct hw conn) := by
  intro h c hc
  simp [construct] at hc

theorem setGoal_active (K : Connectors H) (s : UAVSystem H) (c : ConnectorT) (goal : GoalT c) :
    (s.setGoal K c goal).1.active_controllers_ =
      Function.update s.active_controllers_ (K.getHardwareType c) (some c) := by
  unfold setGoal
  by_cases hne : s.active_controllers_ (K.getHardwareType c) = some c
  · simp only [ne_eq, hne, not_true_eq_false, if_false]
    rw [← hne, Function.update_eq_self]
  · simp only [ne_eq, hne, not_false_eq_true, if_true]

theorem setGoal_connectors (K : Connectors H) (s : UAVSystem H) (c : ConnectorT)
    (goal : GoalT c) :
    (s.setGoal K c goal).1.connectors =
      Function.update s.connectors c ((s.connectors c).setGoal goal) := by
  unfold setGoal
  by_cases hne : s.active_controllers_ (K.getHardwareType c) = some c
  · simp only [ne_eq, hne, not_true_eq_false, if_false]
  · simp only [ne_eq, hne, not_false_eq_true, if_true]

theorem setGoal_of_active (K : Connectors H) (s : UAVSystem H) (c : ConnectorT)
    (goal : GoalT c) (hact : s.active_controllers_ (K.getHardwareType c) = some c) :
    s.setGoal K c goal =
      ({ s with connectors := Function.update s.connectors c ((s.connectors c).setGoal goal) },
        []) := by
  simp [setGoal, hact]

theorem abortController_active (s : UAVSystem H) (h : HardwareType) :
    (s.abortController h).1.active_controllers_ = Function.update s.active_controllers_ h none :=
  rfl

theorem runActiveController_active (K : Connectors H) (s : UAVSystem H) (h : HardwareType) :
    (s.runActiveController K h).1.active_controllers_ = s.active_controllers_ := by
  unfold runActiveController
  cases s.active_controllers_ h <;> rfl

theorem step_wellGrouped (K : Connectors H) (s : UAVSystem H) (op : Op)
    (hs : WellGrouped K s) : WellGrouped K (s.step K op).1 := by
  intro h c hc
  cases op with
  | setGoal c0 goal =>
    simp only [step, setGoal_active] at hc
    by_cases hh : h = K.getHardwareType c0
    · subst hh
      simp only [Function.update_same, Option.some.injEq] at hc
      rw [← hc]
    · rw [Function.update_noteq hh] at hc
      exact hs h c hc
  | abortController h0 =>
    simp only [step, abortController_active] at hc
    by_cases hh : h = h0
    · subst hh
      simp at hc
    · rw [Function.update_noteq hh] at hc
      exact hs h c hc
  | runActiveController h0 =>
    simp only [step, runActiveController_active] at hc
    exact hs h c hc

theorem exec_wellGrouped (K : Connectors H) (ops : List Op) :
    ∀ s : UAVSystem H, WellGrouped K s → WellGrouped K (s.exec K ops) := by
  induction ops with
  | nil => intro s hs; exact hs
  | cons op ops ih => intro s hs; exact ih _ (step_wellGrouped K s op hs)

theorem step_keeps_none (K : Connectors H) (s : UAVSystem H) (h : HardwareType) (op : Op)
    (hop : Op.setsGoalOn K h op = false) (hs : s.active_controllers_ h = none) :
    (s.step K op).1.active_controllers_ h = none := by
  cases op with
  | setGoal c0 goal =>
    have hne : h ≠ K.getHardwareType c0 := by
      intro heq
      simp [Op.setsGoalOn, heq] at hop
    simp only [step, setGoal_active, Function.update_noteq hne, hs]
  | abortController h0 =>
    simp only [step, abortController_active]
    by_cases hh : h = h0
    · subst hh; simp
    · rw [Function.update_noteq hh]; exact hs
  | runActiveController h0 =>
    simp only [step, runActiveController_active]; exact hs

theorem exec_keeps_none (K : Connectors H) (h : HardwareType) (ops : List Op) :
    ∀ s : UAVSystem H, (∀ op ∈ ops, Op.setsGoalOn K h op = false) →
      s.active_controllers_ h = none → (s.exec K ops).active_controllers_ h = none := by
  induction ops with
  | nil => intro s _ hs; exact hs
  | cons op ops ih =>
    intro s hops hs
    exact ih _ (fun o ho => hops o (List.mem_cons_of_mem _ ho))
      (step_keeps_none K s h op (hops op (List.mem_cons_self _ _)) hs)

/-- C1: after every sequence of `setGoal`, `abortController` and `runActiveController`
calls on a freshly constructed `UAVSystem`, the active-controller entry of every
hardware type `h` is either `nullptr` or one connector whose `getHardwareType()` is `h`;
in particular no connector is registered under a group other than its own. -/
theorem C1_active_entry_none_or_own_group (K : Connectors H) (hw : H)
    (conn : (c : ConnectorT) → ConnectorState (GoalT c)) (ops : List Op) (h : HardwareType) :
    (((construct hw conn).exec K ops).active_controllers_ h = none ∨
      ∃ c, ((construct hw conn).exec K ops).active_controllers_ h = some c ∧
        K.getHardwareType c = h) ∧
    ∀ h0 c, ((construct hw conn).exec K ops).active_controllers_ h0 = some c →
      K.getHardwareType c = h0 := by
  have hw := exec_wellGrouped K ops _ (construct_wellGrouped K hw conn)
  refine ⟨?_, hw⟩
  cases hc : ((construct _ conn).exec K ops).active_controllers_ h with
  | none => exact Or.inl rfl
  | some c => exact Or.inr ⟨c, rfl, hw h c hc⟩

/-- C2: after `abortController(h)` no connector is active for `h` and the status of the
group is `NotEngaged`, whichever connector was active before; and this stays so along
every sequence of calls that holds no `setGoal` on a connector of group `h`. -/
theorem C2_abort_disengages_until_setGoal (K : Connectors H) (s : UAVSystem H)
    (h : HardwareType) (ops : List Op)
    (hops : ∀ op ∈ ops, Op.setsGoalOn K h op = false) :
    ((s.abortController h).1.active_controllers_ h = none ∧
      (s.abortController h).1.getActiveControllerStatus h = ControllerStatus.NotEngaged) ∧
    (((s.abortController h).1.exec K ops).active_controllers_ h = none ∧
      ((s.abortController h).1.exec K ops).getActiveControllerStatus h =
        ControllerStatus.NotEngaged) := by
  have h0 : (s.abortController h).1.active_controllers_ h = none := by
    simp [abortController_active]
  have h1 := exec_keeps_none K h ops _ hops h0
  refine ⟨⟨h0, ?_⟩, h1, ?_⟩
  · simp [getActiveControllerStatus, h0]
  · simp [getActiveControllerStatus, h1]

/-- C3: when no connector is active for `h`, `runActiveController(h)` emits nothing (no
lock taken, no `run()`, no hardware write) and returns the state it was given; this is
the case on a freshly constructed system and right after `abortController(h)`. -/
theorem C3_run_without_active_is_noop (K : Connectors H) (s : UAVSystem H) (h : HardwareType)
    (hnone : s.active_controllers_ h = none) :
    s.runActiveController K h = (s, []) ∧
    (∀ (hw : H) (conn : (c : ConnectorT) → ConnectorState (GoalT c)),
      (construct hw conn).runActiveController K h = (construct hw conn, [])) ∧
    (∀ t : UAVSystem H,
      (t.abortController h).1.runActiveController K h = ((t.abortController h).1, [])) := by
  refine ⟨?_, ?_, ?_⟩
  · simp [runActiveController, hnone]
  · intro hw conn
    simp [runActiveController, construct]
  · intro t
    simp [runActiveController, abortController]

/-- C4: when connector `C` is active for `h`, `runActiveController(h)` locks the mutex of
`h`, calls `run()` once, on `C`, lets that run write to the hardware, and only then
unlocks; no other connector is run and the active-controller map is unchanged. -/
theorem C4_run_active_runs_it_once_under_lock (K : Connectors H) (s : UAVSystem H)
    (h : HardwareType) (C : ConnectorT) (hC : s.active_controllers_ h = some C) :
    (s.runActiveController K h).2 =
      [Event.lock h, Event.run C]
        ++ List.replicate (K.run C (s.connectors C).goal (s.connectors C).status
            s.drone_hardware_).writes (Event.hardwareWrite C)
        ++ [Event.unlock h] ∧
    (s.runActiveController K h).2.count (Event.run C) = 1 ∧
    (∀ c, Event.run c ∈ (s.runActiveController K h).2 → c = C) ∧
    (s.runActiveController K h).1.active_controllers_ = s.active_controllers_ := by
  have hev : (s.runActiveController K h).2 =
      [Event.lock h, Event.run C]
        ++ List.replicate (K.run C (s.connectors C).goal (s.connectors C).status
            s.drone_hardware_).writes (Event.hardwareWrite C)
        ++ [Event.unlock h] := by
    simp [runActiveController, hC]
  refine ⟨hev, ?_, ?_, runActiveController_active K s h⟩
  · rw [hev]
    simp [List.count_replicate]
  · intro c hc
    rw [hev] at hc
    simp at hc
    exact hc

/-- C5: after `setGoal<C>(g)` the active connector of the hardware type of `C` is `C`,
whatever was active for that group before. -/
theorem C5_setGoal_activates (K : Connectors H) (s : UAVSystem H) (c : ConnectorT)
    (goal : GoalT c) :
    (s.setGoal K c goal).1.active_controllers_ (K.getHardwareType c) = some c := by
  simp [setGoal_active]

/-- C6: when `C` is already active for its group, `setGoal<C>(g)` leaves the
active-controller map unchanged and takes no lock; and a second `setGoal<C>(g)` right
after a first one emits nothing and returns the state the first one gave. -/
theorem C6_setGoal_idempotent (K : Connectors H) (s : UAVSystem H) (c : ConnectorT)
    (goal : GoalT c) (hact : s.active_controllers_ (K.getHardwareType c) = some c) :
    (s.setGoal K c goal).1.active_controllers_ = s.active_controllers_ ∧
    (s.setGoal K c goal).2 = [] ∧
    (∀ t : UAVSystem H,
      (t.setGoal K c goal).1.setGoal K c goal = ((t.setGoal K c goal).1, [])) := by
  refine ⟨?_, ?_, ?_⟩
  · rw [setGoal_active, ← hact, Function.update_eq_self]
  · simp [setGoal, hact]
  · intro t
    have ht : (t.setGoal K c goal).1.active_controllers_ (K.getHardwareType c) = some c := by
      simp [setGoal_active]
    rw [setGoal_of_active K _ c goal ht]
    congr 1
    have hc := setGoal_connectors K t c goal
    cases hst : (t.setGoal K c goal).1 with
    | mk hw conn act =>
      rw [hst] at hc
      simp only at hc
      simp only [hc, Function.update_same, Function.update_idem, ConnectorState.setGoal]

/-- C7: `setGoal<C>(g)` followed by `getGoal<C>()` returns `g`. -/
theorem C7_setGoal_getGoal_roundtrip (K : Connectors H) (s : UAVSystem H) (c : ConnectorT)
    (goal : GoalT c) :
    (s.setGoal K c goal).1.getGoal c = goal := by
  simp [getGoal, setGoal_connectors, ConnectorState.getGoal, ConnectorState.setGoal]

/-- Witness of C2: the velocity connector is active, the UAV group is aborted, then
runs and an abort of the arm group follow. -/
theorem C2_abort_disengages_until_setGoal_witness :
    sampleEngaged.active_controllers_ HardwareType.UAV =
        some ConnectorT.BuiltInVelocityControllerDroneConnector ∧
    (∀ op ∈ sampleOpsWithoutSetGoal,
        Op.setsGoalOn sampleConnectors HardwareType.UAV op = false) ∧
    (((sampleEngaged.abortController HardwareType.UAV).1.exec sampleConnectors
        sampleOpsWithoutSetGoal).active_controllers_ HardwareType.UAV = none ∧
      ((sampleEngaged.abortController HardwareType.UAV).1.exec sampleConnectors
        sampleOpsWithoutSetGoal).getActiveControllerStatus HardwareType.UAV =
          ControllerStatus.NotEngaged) :=
  ⟨by decide, by decide,
    (C2_abort_disengages_until_setGoal sampleConnectors sampleEngaged HardwareType.UAV
      sampleOpsWithoutSetGoal (by decide)).2⟩

/-- Witness of C3: a run on the arm group of the sample system, where nothing is
active. -/
theorem C3_run_without_active_is_noop_witness :
    sampleEngaged.active_controllers_ HardwareType.Arm = none ∧
    sampleEngaged.runActiveController sampleConnectors HardwareType.Arm = (sampleEngaged, []) :=
  ⟨by decide,
    (C3_run_without_active_is_noop sampleConnectors sampleEngaged HardwareType.Arm
      (by decide)).1⟩

/-- Witness of C4: a run on the UAV group of the sample system while the velocity
connector is active. -/
theorem C4_run_active_runs_it_once_under_lock_witness :
    sampleEngaged.active_controllers_ HardwareType.UAV =
        some ConnectorT.BuiltInVelocityControllerDroneConnector ∧
    (sampleEngaged.runActiveController sampleConnectors HardwareType.UAV).2 =
      [Event.lock HardwareType.UAV, Event.run ConnectorT.BuiltInVelocityControllerDroneConnector,
        Event.hardwareWrite ConnectorT.BuiltInVelocityControllerDroneConnector,
        Event.unlock HardwareType.UAV] :=
  ⟨by decide,
    (C4_run_active_runs_it_once_under_lock sampleConnectors sampleEngaged HardwareType.UAV
      ConnectorT.BuiltInVelocityControllerDroneConnector (by decide)).1⟩

/-- Witness of C6: the velocity goal is set again while the velocity connector is
active. -/
theorem C6_setGoal_idempotent_witness :
    sampleEngaged.active_controllers_
        (sampleConnectors.getHardwareType ConnectorT.BuiltInVelocityControllerDroneConnector) =
        some ConnectorT.BuiltInVelocityControllerDroneConnector ∧
    (sampleEngaged.setGoal sampleConnectors ConnectorT.BuiltInVelocityControllerDroneConnector
        sampleVelocityGoal).1.active_controllers_ = sampleEngaged.active_controllers_ ∧
    (sampleEngaged.setGoal sampleConnectors ConnectorT.BuiltInVelocityControllerDroneConnector
        sampleVelocityGoal).2 = [] :=
  ⟨by decide,
    (C6_setGoal_idempotent sampleConnectors sampleEngaged
      ConnectorT.BuiltInVelocityControllerDroneConnector sampleVelocityGoal (by decide)).1,
    (C6_setGoal_idempotent sampleConnectors sampleEngaged
      ConnectorT.BuiltInVelocityControllerDroneConnector sampleVelocityGoal (by decide)).2.1⟩

end UAVSystem

/-! ## The thrust-producing connectors: theorems -/

namespace QrotorBacksteppingControllerConnector

variable {G : Type}

/-- The message of `sendControllerCommands` carries, on each of the three attitude
axes, the integrated value passed through the bounds of that axis. -/
theorem sendControllerCommands_message (L : NumericLibrary)
    (s : QrotorBacksteppingControllerConnector G) (control : QrotorBacksteppingControl)
    (now : ℚ) :
    ∃ w, (s.sendControllerCommands L control now).2 =
      [{ x := if (integratedCommands L s control now).x < s.lb_ 0 then s.lb_ 0
            else if (integratedCommands L s control now).x > s.ub_ 0 then s.ub_ 0
            else (integratedCommands L s control now).x
         y := if (integratedCommands L s control now).y < s.lb_ 1 then s.lb_ 1
            else if (integratedCommands L s control now).y > s.ub_ 1 then s.ub_ 1
            else (integratedCommands L s control now).y
         z := if (integratedCommands L s control now).z < s.lb_ 2 then s.lb_ 2
            else if (integratedCommands L s control now).z > s.ub_ 2 then s.ub_ 2
            else (integratedCommands L s control now).z
         w := w }] :=
  ⟨_, rfl⟩

/-- The bound test of the source saturates, provided the bounds are ordered. -/
theorem saturatedTo_of_bounds (v lo hi : ℚ) (hb : lo ≤ hi) :
    SaturatedTo (if v < lo then lo else if v > hi then hi else v) v lo hi ∧
    (if v < lo then lo else if v > hi then hi else v) = max lo (min v hi) := by
  unfold SaturatedTo
  refine ⟨⟨?_, ?_, ?_⟩, ?_⟩
  · rintro ⟨h1, h2⟩
    rw [if_neg (not_lt.mpr h1), if_neg (not_lt.mpr h2)]
  · intro h1
    rw [if_pos h1]
  · intro h2
    rw [if_neg (not_lt.mpr (le_trans hb h2.le)), if_pos h2]
  · by_cases h1 : v < lo
    · rw [if_pos h1, min_eq_left (le_trans h1.le hb), max_eq_left h1.le]
    · by_cases h2 : hi < v
      · rw [if_neg h1, if_pos h2, min_eq_right h2.le, max_eq_right hb]
      · rw [if_neg h1, if_neg h2, min_eq_left (not_lt.mp h2), max_eq_right (not_lt.mp h1)]

/-- C9: `setGoal` resets the integrator fields whatever they held: `thrust_` becomes
`m_ * g_`, `thrust_dot_`, `roll_cmd_` and `pitch_cmd_` become 0, `omega_cmd_` the zero
vector, and `t_0_` and `previous_time_` each the clock reading of its own assignment.
Hence for two connectors of the same configuration (mass, gravity, inertia, and gain,
capacity and fit of the estimator), whatever else they held before, a run after
`setGoal` sends the same message and leaves the same state. -/
theorem C9_setGoal_resets_integrators (L : NumericLibrary)
    (controller : ℚ × QrotorBacksteppingState → G → QrotorBacksteppingControl)
    (s s2 : QrotorBacksteppingControllerConnector G) (goal : G) (now0 now1 : ℚ)
    (quad : QuadData) (now2 now3 : ℚ)
    (hm : s2.m_ = s.m_) (hg : s2.g_ = s.g_) (hJ : s2.J_ = s.J_)
    (hgain : s2.thrust_gain_estimator_.thrust_gain = s.thrust_gain_estimator_.thrust_gain)
    (hcap : s2.thrust_gain_estimator_.capacity = s.thrust_gain_estimator_.capacity)
    (hfit : s2.thrust_gain_estimator_.fit = s.thrust_gain_estimator_.fit) :
    ((s.setGoal goal now0 now1).thrust_ = s.m_ * s.g_ ∧
      (s.setGoal goal now0 now1).thrust_dot_ = 0 ∧
      (s.setGoal goal now0 now1).roll_cmd_ = 0 ∧
      (s.setGoal goal now0 now1).pitch_cmd_ = 0 ∧
      (s.setGoal goal now0 now1).omega_cmd_ = Vec3.zero ∧
      (s.setGoal goal now0 now1).t_0_ = now0 ∧
      (s.setGoal goal now0 now1).previous_time_ = now1) ∧
    run L controller (s2.setGoal goal now0 now1) quad now2 now3 =
      run L controller (s.setGoal goal now0 now1) quad now2 now3 := by
  refine ⟨⟨rfl, rfl, rfl, rfl, rfl, rfl, rfl⟩, ?_⟩
  obtain ⟨goal_s, est_s, data_s, cur_s, t0_s, prev_s, m_s, g_s, J_s, thrust_s, thrust_dot_s,
    thrust_cmd_s, roll_s, pitch_s, yaw_s, omega_s, lb_s, ub_s⟩ := s
  obtain ⟨goal_2, est_2, data_2, cur_2, t0_2, prev_2, m_2, g_2, J_2, thrust_2, thrust_dot_2,
    thrust_cmd_2, roll_2, pitch_2, yaw_2, omega_2, lb_2, ub_2⟩ := s2
  obtain ⟨buffer_s, capacity_s, gain_s, fit_s⟩ := est_s
  obtain ⟨buffer_2, capacity_2, gain_2, fit_2⟩ := est_2
  simp only at hm hg hJ hgain hcap hfit
  subst hm hg hJ hgain hcap hfit
  rfl

/-- C10: with ordered bounds on the three attitude axes, the one message sent by
`sendControllerCommands` carries as roll, pitch and yaw rate the integrated value of
that axis saturated to the bounds of that axis (the value itself when inside, the lower
bound when below, the upper bound when above); and the value sent on an axis is the
same under any other bounds that agree on that axis. -/
theorem C10_attitude_commands_saturated_per_axis (L : NumericLibrary)
    (s : QrotorBacksteppingControllerConnector G) (control : QrotorBacksteppingControl)
    (now : ℚ) (h0 : s.lb_ 0 ≤ s.ub_ 0) (h1 : s.lb_ 1 ≤ s.ub_ 1) (h2 : s.lb_ 2 ≤ s.ub_ 2) :
    (∃ msg, (s.sendControllerCommands L control now).2 = [msg] ∧
      (SaturatedTo msg.x (integratedCommands L s control now).x (s.lb_ 0) (s.ub_ 0) ∧
        msg.x = max (s.lb_ 0) (min (integratedCommands L s control now).x (s.ub_ 0))) ∧
      (SaturatedTo msg.y (integratedCommands L s control now).y (s.lb_ 1) (s.ub_ 1) ∧
        msg.y = max (s.lb_ 1) (min (integratedCommands L s control now).y (s.ub_ 1))) ∧
      (SaturatedTo msg.z (integratedCommands L s control now).z (s.lb_ 2) (s.ub_ 2) ∧
        msg.z = max (s.lb_ 2) (min (integratedCommands L s control now).z (s.ub_ 2)))) ∧
    (∀ lb ub : Fin 4 → ℚ, lb 0 = s.lb_ 0 → ub 0 = s.ub_ 0 →
      (({ s with lb_ := lb, ub_ := ub }).sendControllerCommands L control now).2.map
          Quaternion.x =
        (s.sendControllerCommands L control now).2.map Quaternion.x) ∧
    (∀ lb ub : Fin 4 → ℚ, lb 1 = s.lb_ 1 → ub 1 = s.ub_ 1 →
      (({ s with lb_ := lb, ub_ := ub }).sendControllerCommands L control now).2.map
          Quaternion.y =
        (s.sendControllerCommands L control now).2.map Quaternion.y) ∧
    (∀ lb ub : Fin 4 → ℚ, lb 2 = s.lb_ 2 → ub 2 = s.ub_ 2 →
      (({ s with lb_ := lb, ub_ := ub }).sendControllerCommands L control now).2.map
          Quaternion.z =
        (s.sendControllerCommands L control now).2.map Quaternion.z) := by
  obtain ⟨w, hw⟩ := sendControllerCommands_message L s control now
  refine ⟨⟨_, hw, saturatedTo_of_bounds _ _ _ h0, saturatedTo_of_bounds _ _ _ h1,
    saturatedTo_of_bounds _ _ _ h2⟩, ?_, ?_, ?_⟩
  all_goals
    intro lb ub hlb hub
    obtain ⟨w2, hw2⟩ :=
      sendControllerCommands_message L ({ s with lb_ := lb, ub_ := ub }) control now
    have hi : integratedCommands L ({ s with lb_ := lb, ub_ := ub }) control now =
        integratedCommands L s control now := rfl
    rw [hw, hw2, hi]
    simp only [List.map_cons, List.map_nil, hlb, hub]

/-- Witness of C9: a connector with stale integrators and one at rest, a new goal set on
both at clock reading 100, then one run at reading 101. -/
theorem C9_setGoal_resets_integrators_witness :
    (sampleQrotorFresh.m_ = sampleQrotorStale.m_ ∧
      sampleQrotorFresh.g_ = sampleQrotorStale.g_ ∧
      sampleQrotorFresh.J_ = sampleQrotorStale.J_ ∧
      sampleQrotorFresh.thrust_gain_estimator_.thrust_gain =
        sampleQrotorStale.thrust_gain_estimator_.thrust_gain ∧
      sampleQrotorFresh.thrust_gain_estimator_.capacity =
        sampleQrotorStale.thrust_gain_estimator_.capacity ∧
      sampleQrotorFresh.thrust_gain_estimator_.fit =
        sampleQrotorStale.thrust_gain_estimator_.fit) ∧
    sampleQrotorStale.thrust_ = 30 ∧
    (sampleQrotorStale.setGoal 1 100 100).thrust_ = 2 * 10 ∧
    run sampleLibrary sampleController (sampleQrotorFresh.setGoal 1 100 100) sampleQuadData
        101 101 =
      run sampleLibrary sampleController (sampleQrotorStale.setGoal 1 100 100) sampleQuadData
        101 101 :=
  ⟨⟨rfl, rfl, rfl, rfl, rfl, rfl⟩, rfl,
    (C9_setGoal_resets_integrators sampleLibrary sampleController sampleQrotorStale
      sampleQrotorFresh 1 100 100 sampleQuadData 101 101 rfl rfl rfl rfl rfl rfl).1.1,
    (C9_setGoal_resets_integrators sampleLibrary sampleController sampleQrotorStale
      sampleQrotorFresh 1 100 100 sampleQuadData 101 101 rfl rfl rfl rfl rfl rfl).2⟩

/-- Witness of C10: half a second after the previous call, the sample control takes the
roll to 1.05 (sent: the upper bound 0.785), the pitch to 0.05 (sent as it is) and the
yaw rate to -9 (sent: the lower bound -1.5708). -/
theorem C10_attitude_commands_saturated_per_axis_witness :
    (sampleQrotorStale.lb_ 0 ≤ sampleQrotorStale.ub_ 0 ∧
      sampleQrotorStale.lb_ 1 ≤ sampleQrotorStale.ub_ 1 ∧
      sampleQrotorStale.lb_ 2 ≤ sampleQrotorStale.ub_ 2) ∧
    integratedCommands sampleLibrary sampleQrotorStale sampleControl (1 / 2) =
      { x := 1.05, y := 0.05, z := -9 } ∧
    (sampleQrotorStale.sendControllerCommands sampleLibrary sampleControl (1 / 2)).2 =
      [{ x := 0.785, y := 0.05, z := -1.5708, w := 12 }] ∧
    ∃ msg, (sampleQrotorStale.sendControllerCommands sampleLibrary sampleControl (1 / 2)).2 =
        [msg] ∧
      (SaturatedTo msg.x (integratedCommands sampleLibrary sampleQrotorStale sampleControl
          (1 / 2)).x (sampleQrotorStale.lb_ 0) (sampleQrotorStale.ub_ 0) ∧
        msg.x = max (sampleQrotorStale.lb_ 0)
          (min (integratedCommands sampleLibrary sampleQrotorStale sampleControl (1 / 2)).x
            (sampleQrotorStale.ub_ 0))) ∧
      (SaturatedTo msg.y (integratedCommands sampleLibrary sampleQrotorStale sampleControl
          (1 / 2)).y (sampleQrotorStale.lb_ 1) (sampleQrotorStale.ub_ 1) ∧
        msg.y = max (sampleQrotorStale.lb_ 1)
          (min (integratedCommands sampleLibrary sampleQrotorStale sampleControl (1 / 2)).y
            (sampleQrotorStale.ub_ 1))) ∧
      (SaturatedTo msg.z (integratedCommands sampleLibrary sampleQrotorStale sampleControl
          (1 / 2)).z (sampleQrotorStale.lb_ 2) (sampleQrotorStale.ub_ 2) ∧
        msg.z = max (sampleQrotorStale.lb_ 2)
          (min (integratedCommands sampleLibrary sampleQrotorStale sampleControl (1 / 2)).z
            (sampleQrotorStale.ub_ 2))) :=
  ⟨⟨by norm_num [sampleQrotorStale, sampleQrotor],
      by norm_num [sampleQrotorStale, sampleQrotor],
      by norm_num [sampleQrotorStale, sampleQrotor]⟩,
    by
      simp [integratedCommands, omegaToRpyDot, sampleQrotorStale, sampleQrotor, sampleLibrary,
        sampleControl, Mat3.mulVec, Vec3.dot, Vec3.cross, Vec3.add, Vec3.scale, Vec3.zero]
      norm_num,
    by
      simp [sendControllerCommands, omegaToRpyDot, sampleQrotorStale, sampleQrotor,
        sampleLibrary, sampleControl, sampleEstimator, Mat3.mulVec, Vec3.dot, Vec3.cross,
        Vec3.add, Vec3.scale, Vec3.zero, ThrustGainEstimator.getThrustGain]
      norm_num,
    (C10_attitude_commands_saturated_per_axis sampleLibrary sampleQrotorStale sampleControl
      (1 / 2) (by norm_num [sampleQrotorStale, sampleQrotor])
      (by norm_num [sampleQrotorStale, sampleQrotor])
      (by norm_num [sampleQrotorStale, sampleQrotor])).1⟩

end QrotorBacksteppingControllerConnector

/-- C8: for both connectors and every content of the estimator buffer, `setGoal(g)`
leaves `g` as the goal of the connector and the estimator buffer empty. -/
theorem C8_setGoal_stores_goal_and_clears_buffer {G : Type}
    (q : QrotorBacksteppingControllerConnector G) (goal : G) (now0 now1 : ℚ)
    (r : RPYTRelativePoseVisualServoingConnector) (g : PositionYaw) :
    ((q.setGoal goal now0 now1).goal = goal ∧
      (q.setGoal goal now0 now1).thrust_gain_estimator_.buffer = []) ∧
    ((r.setGoal g).goal = g ∧ (r.setGoal g).thrust_gain_estimator_.buffer = []) :=
  ⟨⟨rfl, rfl⟩, rfl, rfl⟩

/-! ## Rounding of `double` products and quotients: theorems -/

/-- The spacing around a `q` whose magnitude lies in `[2 ^ e, 2 ^ (e + 1))`. -/
theorem doubleSpacing_eq (q : ℚ) (e : ℤ) (hlo : (2 : ℚ) ^ e ≤ |q|)
    (hhi : |q| < (2 : ℚ) ^ (e + 1)) : doubleSpacing q = (2 : ℚ) ^ (e - 52) := by
  have hpos : 0 < |q| := lt_of_lt_of_le (by positivity) hlo
  have h1 : e ≤ Int.log 2 |q| :=
    (Int.zpow_le_iff_le_log (by norm_num) hpos).mp (by exact_mod_cast hlo)
  have h2 : Int.log 2 |q| < e + 1 :=
    (Int.lt_zpow_iff_log_lt (by norm_num) hpos).mp (by exact_mod_cast hhi)
  have h3 : Int.log 2 |q| = e := by omega
  unfold doubleSpacing
  rw [h3]

/-- A multiple of the spacing that is less than half a spacing away from `q` is the
`double` nearest to `q`. -/
theorem roundDouble_eq_of_near (q : ℚ) (e n : ℤ) (hlo : (2 : ℚ) ^ e ≤ |q|)
    (hhi : |q| < (2 : ℚ) ^ (e + 1))
    (hnear : |q - n * (2 : ℚ) ^ (e - 52)| < (2 : ℚ) ^ (e - 52) / 2) :
    roundDouble q = n * (2 : ℚ) ^ (e - 52) := by
  have hu := doubleSpacing_eq q e hlo hhi
  have hupos : (0 : ℚ) < (2 : ℚ) ^ (e - 52) := by positivity
  unfold roundDouble
  rw [hu]
  set u : ℚ := (2 : ℚ) ^ (e - 52) with hudef
  have hy : |q / u - n| < 1 / 2 := by
    have h : q / u - n = (q - n * u) / u := by
      field_simp
      ring
    rw [h, abs_div, abs_of_pos hupos, div_lt_iff₀ hupos]
    linarith
  rw [abs_lt] at hy
  by_cases hge : (n : ℚ) ≤ q / u
  · have hfloor : ⌊q / u⌋ = n := by
      rw [Int.floor_eq_iff]
      exact ⟨hge, by linarith⟩
    simp only [hfloor]
    rw [if_pos (by linarith)]
  · push_neg at hge
    have hfloor : ⌊q / u⌋ = n - 1 := by
      rw [Int.floor_eq_iff]
      push_cast
      exact ⟨by linarith, by linarith⟩
    simp only [hfloor]
    push_cast
    rw [if_neg (by linarith), if_pos (by linarith)]
    ring

/-- The form of `roundDouble_eq_of_near` for a positive `q`. -/
theorem roundDouble_eq_of_pos (q r : ℚ) (e n : ℤ) (hr : r = n * (2 : ℚ) ^ (e - 52))
    (hlo : (2 : ℚ) ^ e ≤ q) (hhi : q < (2 : ℚ) ^ (e + 1))
    (h1 : q - r < (2 : ℚ) ^ (e - 52) / 2) (h2 : r - q < (2 : ℚ) ^ (e - 52) / 2) :
    roundDouble q = r := by
  have hq : 0 < q := lt_of_lt_of_le (by positivity) hlo
  rw [hr]
  apply roundDouble_eq_of_near q e n
  · rw [abs_of_pos hq]
    exact hlo
  · rw [abs_of_pos hq]
    exact hhi
  · rw [← hr, abs_lt]
    constructor <;> linarith

/-- Exact products and quotients have no error. -/
theorem sampleLibrary_roundsWithin : sampleLibrary.RoundsWithin 0 := by
  constructor <;> intro a b <;> simp [sampleLibrary]

/-- The decimal literals 0.1, 0.8, 1.2, 8.4 and 12.6 denote the sample `double`
values. -/
theorem roundDouble_literals :
    roundDouble 0.1 = double_0_1 ∧ roundDouble 0.8 = double_0_8 ∧
    roundDouble 1.2 = double_1_2 ∧ roundDouble 8.4 = double_8_4 ∧
    roundDouble 12.6 = double_12_6 := by
  refine ⟨?_, ?_, ?_, ?_, ?_⟩
  · exact roundDouble_eq_of_pos _ _ (-4) 7205759403792794 (by norm_num [double_0_1])
      (by norm_num) (by norm_num) (by norm_num [double_0_1]) (by norm_num [double_0_1])
  · exact roundDouble_eq_of_pos _ _ (-1) 7205759403792794 (by norm_num [double_0_8])
      (by norm_num) (by norm_num) (by norm_num [double_0_8]) (by norm_num [double_0_8])
  · exact roundDouble_eq_of_pos _ _ 0 5404319552844595 (by norm_num [double_1_2])
      (by norm_num) (by norm_num) (by norm_num [double_1_2]) (by norm_num [double_1_2])
  · exact roundDouble_eq_of_pos _ _ 3 4728779608739021 (by norm_num [double_8_4])
      (by norm_num) (by norm_num) (by norm_num [double_8_4]) (by norm_num [double_8_4])
  · exact roundDouble_eq_of_pos _ _ 3 7093169413108531 (by norm_num [double_12_6])
      (by norm_num) (by norm_num) (by norm_num [double_12_6]) (by norm_num [double_12_6])

/-! ## Thrust bound, sensor failure and hardware writes: theorems -/

namespace QrotorBacksteppingControllerConnector

variable {G : Type}

end QrotorBacksteppingControllerConnector

namespace RPYTRelativePoseVisualServoingConnector

/-- C12: `extractSensorData` returns false exactly when the tracker gives no tracking
vector; then it writes nothing to the hardware, leaves the connector as it was (no
sample added to the estimator, `kt` not updated) and leaves `sensor_data` as it was.
Being a total function, it raises no error. -/
theorem C12_extract_fails_only_without_tracking (F : VisualServoingFrames)
    (s : RPYTRelativePoseVisualServoingConnector) (quad_data : QuadData)
    (tracking : Option Pose) (sensor_data : Pose × Pose × VelocityYawRate) :
    ((s.extractSensorData F quad_data tracking sensor_data).1 = false ↔ tracking = none) ∧
    s.extractSensorData F quad_data none sensor_data = (false, sensor_data, s, []) ∧
    (s.extractSensorData F quad_data none sensor_data).2.2.1.thrust_gain_estimator_.buffer =
      s.thrust_gain_estimator_.buffer ∧
    (s.extractSensorData F quad_data none sensor_data).2.2.1.kt = s.kt ∧
    (s.extractSensorData F quad_data tracking sensor_data).2.2.2 = [] := by
  refine ⟨?_, rfl, rfl, rfl, ?_⟩
  · cases tracking <;> simp [extractSensorData]
  · cases tracking <;> rfl

end RPYTRelativePoseVisualServoingConnector

/-- C13: a call of `sendControllerCommands` on either connector passes exactly one
message to the hardware; for the visual-servoing connector it is `(r, p, y, t)` of the
control; and on both the estimator after the call is the estimator before it with
`addThrustCommand` applied once, to the `w` of that message. -/
theorem C13_one_message_and_its_thrust_recorded {G : Type} (L : NumericLibrary)
    (q : QrotorBacksteppingControllerConnector G) (control : QrotorBacksteppingControl)
    (now : ℚ) (r : RPYTRelativePoseVisualServoingConnector)
    (controls : RollPitchYawRateThrust) :
    (∃ msg, (q.sendControllerCommands L control now).2 = [msg] ∧
      (q.sendControllerCommands L control now).1.thrust_gain_estimator_ =
        q.thrust_gain_estimator_.addThrustCommand msg.w ∧
      (q.sendControllerCommands L control now).1.thrust_gain_estimator_.buffer =
        ThrustGainEstimator.push q.thrust_gain_estimator_.capacity
          q.thrust_gain_estimator_.buffer (EstimatorSample.thrustCommand msg.w)) ∧
    ((r.sendControllerCommands controls).2 =
        [{ x := controls.r, y := controls.p, z := controls.y, w := controls.t }] ∧
      (r.sendControllerCommands controls).1.thrust_gain_estimator_ =
        r.thrust_gain_estimator_.addThrustCommand controls.t ∧
      (r.sendControllerCommands controls).1.thrust_gain_estimator_.buffer =
        ThrustGainEstimator.push r.thrust_gain_estimator_.capacity
          r.thrust_gain_estimator_.buffer (EstimatorSample.thrustCommand controls.t)) :=
  ⟨⟨_, rfl, rfl, rfl⟩, rfl, rfl, rfl⟩

namespace BuiltInPoseControllerArmConnector

/-- C14, as amended: `extractSensorData` always succeeds and delivers the end-effector
transform, but `sendControllerCommands(pose)` passes nothing to the arm hardware and
leaves the connector as it was, so a run succeeds with no hardware write; the goal pose
is passed to the arm hardware once, by the source function `initialize`. -/
theorem C14_arm_run_succeeds_without_write (controller : Pose → Pose → Pose)
    (s : BuiltInPoseControllerArmConnector) (end_effector_transform pose : Pose) :
    s.extractSensorData end_effector_transform = (true, end_effector_transform) ∧
    s.sendControllerCommands pose = (s, []) ∧
    s.run controller end_effector_transform = (true, s, []) ∧
    s.initializeConnector = (s, [s.goal]) :=
  ⟨rfl, rfl, rfl, rfl⟩

/-- C14, counterexample: on the sample arm connector a run succeeds and
`sendControllerCommands` is given the pose computed by the controller, yet no pose
reaches the arm hardware: the number of hardware writes is 0, not 1. -/
theorem C14_arm_run_one_write_counterexample :
    (sampleArm.run sampleArmController samplePose).1 = true ∧
    (sampleArm.run sampleArmController samplePose).2.2.length = 0 ∧
    ¬ ((sampleArm.run sampleArmController samplePose).2.2.length = 1) ∧
    ¬ ((sampleArm.sendControllerCommands
        (sampleArmController samplePose sampleArm.goal)).2 =
      [sampleArmController samplePose sampleArm.goal]) := by
  refine ⟨rfl, rfl, ?_, ?_⟩
  · decide
  · simp [sendControllerCommands]

end BuiltInPoseControllerArmConnector

/-- C15: the default `goal(t)` returns the state component of `atTime(t)` when
`atTime(t)` returns, fails with the exception of `atTime(t)` when that fails, and fails
in no other case. -/
theorem C15_goal_is_state_of_atTime {StateT ControlT E : Type}
    (r : ReferenceTrajectory StateT ControlT E) (t : ℚ) :
    (∀ p, r.atTime t = Except.ok p → r.goal t = Except.ok p.1) ∧
    (∀ e, r.atTime t = Except.error e → r.goal t = Except.error e) ∧
    ((∃ e, r.goal t = Except.error e) ↔ ∃ e, r.atTime t = Except.error e) ∧
    ((∃ x, r.goal t = Except.ok x) ↔ ∃ p, r.atTime t = Except.ok p) := by
  unfold ReferenceTrajectory.goal
  cases h : r.atTime t with
  | ok p => simp
  | error e => simp

/-! ## Guards and internal actions: theorems -/

/-- C16: the takeoff guard returns false when the battery percentage is below the
configured minimum and true otherwise; with the guard false the machine stays in
`Landed` and commands nothing, so `Takeoff` is entered only on sufficient battery; for
every minimum above 10 and up to 60 the guard is true at 60 percent and false at 10
percent. -/
theorem C16_takeoff_guard_battery_gate (cfg : GuardConfig) (data : QuadStatus) :
    (TakeoffGuard cfg data = false ↔ data.batterypercent < cfg.minimum_battery_percent) ∧
    (TakeoffGuard cfg data = true ↔ ¬ data.batterypercent < cfg.minimum_battery_percent) ∧
    (data.batterypercent < cfg.minimum_battery_percent →
      landedOnTakeoff cfg data = (FlightState.Landed, [])) ∧
    ((landedOnTakeoff cfg data).1 = FlightState.Takeoff →
      ¬ data.batterypercent < cfg.minimum_battery_percent) ∧
    (∀ (minimum : ℚ) (switch : Bool), 10 < minimum → minimum ≤ 60 →
      TakeoffGuard { cfg with minimum_battery_percent := minimum }
          { batterypercent := 60, rc_sdk_control_switch := switch } = true ∧
        TakeoffGuard { cfg with minimum_battery_percent := minimum }
          { batterypercent := 10, rc_sdk_control_switch := switch } = false) := by
  refine ⟨?_, ?_, ?_, ?_, ?_⟩
  · unfold TakeoffGuard
    split <;> simp [*]
  · unfold TakeoffGuard
    split <;> simp [*]
  · intro h
    simp [landedOnTakeoff, TakeoffGuard, h]
  · intro h hlow
    simp [landedOnTakeoff, TakeoffGuard, hlow] at h
  · intro minimum switch h10 h60
    simp only [TakeoffGuard]
    rw [if_neg (not_lt.mpr h60), if_pos h10]
    exact ⟨rfl, rfl⟩

/-- The velocity guard rejects exactly the goals whose magnitude, the square root of
the sum of the squares of the three velocity components, exceeds the maximum. -/
theorem guardVelocityGoal_false_iff (cfg : GuardConfig) (goal : VelocityYaw) :
    GuardVelocityGoal cfg goal = false ↔
      (cfg.max_goal_velocity : ℝ) <
        Real.sqrt ((goal.x : ℝ) ^ 2 + (goal.y : ℝ) ^ 2 + (goal.z : ℝ) ^ 2) := by
  have hsq : ((goal.normSq : ℚ) : ℝ) =
      (goal.x : ℝ) ^ 2 + (goal.y : ℝ) ^ 2 + (goal.z : ℝ) ^ 2 := by
    simp only [VelocityYaw.normSq]
    push_cast
    ring
  rw [← hsq]
  unfold GuardVelocityGoal
  by_cases hneg : cfg.max_goal_velocity < 0
  · have hr : (cfg.max_goal_velocity : ℝ) < 0 := by exact_mod_cast hneg
    simp only [hneg, true_or, if_true, true_iff]
    exact lt_of_lt_of_le hr (Real.sqrt_nonneg _)
  · have hr : (0 : ℝ) ≤ (cfg.max_goal_velocity : ℝ) := by exact_mod_cast not_lt.mp hneg
    rw [Real.lt_sqrt hr]
    have hcast : (cfg.max_goal_velocity : ℝ) ^ 2 < ((goal.normSq : ℚ) : ℝ) ↔
        cfg.max_goal_velocity * cfg.max_goal_velocity < goal.normSq := by
      rw [pow_two]
      exact_mod_cast Iff.rfl
    rw [hcast]
    by_cases hlt : cfg.max_goal_velocity * cfg.max_goal_velocity < goal.normSq
    · simp [hlt]
    · simp [hneg, hlt]

/-- C17: the velocity guard rejects every goal whose magnitude exceeds the configured
maximum velocity and accepts every goal whose magnitude is below it; with maximum
velocity 2 it accepts `(1, 1, 1)` and rejects `(1, 1, 2.1)`, whatever the yaw. -/
theorem C17_velocity_guard_bounds_magnitude (cfg : GuardConfig) (goal : VelocityYaw) :
    ((cfg.max_goal_velocity : ℝ) <
        Real.sqrt ((goal.x : ℝ) ^ 2 + (goal.y : ℝ) ^ 2 + (goal.z : ℝ) ^ 2) →
      GuardVelocityGoal cfg goal = false) ∧
    (Real.sqrt ((goal.x : ℝ) ^ 2 + (goal.y : ℝ) ^ 2 + (goal.z : ℝ) ^ 2) <
        (cfg.max_goal_velocity : ℝ) →
      GuardVelocityGoal cfg goal = true) ∧
    (∀ yaw : ℚ,
      GuardVelocityGoal { cfg with max_goal_velocity := 2 }
          { x := 1, y := 1, z := 1, yaw := yaw } = true ∧
        GuardVelocityGoal { cfg with max_goal_velocity := 2 }
          { x := 1, y := 1, z := 2.1, yaw := yaw } = false) := by
  refine ⟨(guardVelocityGoal_false_iff cfg goal).mpr, ?_, ?_⟩
  · intro h
    cases hg : GuardVelocityGoal cfg goal with
    | true => rfl
    | false => exact absurd ((guardVelocityGoal_false_iff cfg goal).mp hg) (not_lt.mpr h.le)
  · intro yaw
    constructor <;> norm_num [GuardVelocityGoal, VelocityYaw.normSq]

/-- C18: the position guard rejects every goal whose target exceeds the configured bound
and accepts every goal within it; with the altitude as the bounded quantity and a bound
from 1 to below 1000 it accepts `(1, 1, 1, yaw 1)` and rejects `(1, 1, 1000, yaw 1)`;
on rejection the machine keeps its state, the system is the one it was and no call was
made on it, so the goal of every connector is the one it had. -/
theorem C18_position_guard_bounds_target {H : Type} (K : Connectors H) (cfg : GuardConfig)
    (extent : PositionYaw → ℚ) (state : FlightState) (system : UAVSystem H)
    (goal : PositionYaw) :
    (extent goal > cfg.max_goal_extent → ReachingGoalGuard cfg extent goal = false) ∧
    (extent goal ≤ cfg.max_goal_extent → ReachingGoalGuard cfg extent goal = true) ∧
    (ReachingGoalGuard cfg extent goal = false →
      onPositionGoal K cfg extent state system goal = (state, system, []) ∧
        ∀ c, (onPositionGoal K cfg extent state system goal).2.1.getGoal c =
          system.getGoal c) ∧
    (∀ bound : ℚ, 1 ≤ bound → bound < 1000 →
      ReachingGoalGuard { cfg with max_goal_extent := bound } PositionYaw.altitude
          sampleGoalNear = true ∧
        ReachingGoalGuard { cfg with max_goal_extent := bound } PositionYaw.altitude
          sampleGoalFar = false) := by
  refine ⟨?_, ?_, ?_, ?_⟩
  · intro h
    simp [ReachingGoalGuard, h]
  · intro h
    simp [ReachingGoalGuard, not_lt.mpr h]
  · intro h
    have hstep : onPositionGoal K cfg extent state system goal = (state, system, []) := by
      simp [onPositionGoal, h]
    refine ⟨hstep, ?_⟩
    intro c
    rw [hstep]
  · intro bound h1 h2
    simp only [ReachingGoalGuard, PositionYaw.altitude, sampleGoalNear, sampleGoalFar, gt_iff_lt]
    rw [if_neg (not_lt.mpr h1), if_pos h2]
    exact ⟨rfl, rfl⟩

/-- C20: with no pilot override, the internal action of `Hovering` raises `Abort` on a
tick exactly when the battery percentage is below the low-battery threshold, and raises
nothing otherwise; for every threshold above 20 and up to 60 it raises no `Abort` at 60
percent and raises `Abort` at 20 percent. -/
theorem C20_hovering_aborts_on_low_battery (cfg : GuardConfig) (data : QuadStatus)
    (status : ControllerStatus) (hswitch : data.rc_sdk_control_switch = true) :
    ((HoveringInternalActionFunctor cfg data status).2 = some FlightEvent.Abort ↔
      data.batterypercent < cfg.low_battery_percent) ∧
    (¬ data.batterypercent < cfg.low_battery_percent →
      HoveringInternalActionFunctor cfg data status = (true, none)) ∧
    (∀ threshold : ℚ, 20 < threshold → threshold ≤ 60 →
      (HoveringInternalActionFunctor { cfg with low_battery_percent := threshold }
          { batterypercent := 60, rc_sdk_control_switch := true } status).2 ≠
            some FlightEvent.Abort ∧
        (HoveringInternalActionFunctor { cfg with low_battery_percent := threshold }
          { batterypercent := 20, rc_sdk_control_switch := true } status).2 =
            some FlightEvent.Abort) := by
  refine ⟨?_, ?_, ?_⟩
  · by_cases hlow : data.batterypercent < cfg.low_battery_percent <;>
      simp [HoveringInternalActionFunctor, hswitch, hlow]
  · intro hlow
    simp [HoveringInternalActionFunctor, hswitch, hlow]
  · intro threshold h20 h60
    simp [HoveringInternalActionFunctor, not_lt.mpr h60, h20]

/-- Witness of C20: a threshold of 40 percent, a battery at 20 percent and no pilot
override: the tick raises `Abort`. -/
theorem C20_hovering_aborts_on_low_battery_witness :
    (sampleBattery 20).rc_sdk_control_switch = true ∧
    ((HoveringInternalActionFunctor sampleGuardConfig (sampleBattery 20)
        ControllerStatus.Active).2 = some FlightEvent.Abort ↔
      (sampleBattery 20).batterypercent < sampleGuardConfig.low_battery_percent) ∧
    (sampleBattery 20).batterypercent < sampleGuardConfig.low_battery_percent :=
  ⟨rfl,
    (C20_hovering_aborts_on_low_battery sampleGuardConfig (sampleBattery 20)
      ControllerStatus.Active rfl).1,
    by norm_num [sampleBattery, sampleGuardConfig]⟩

/-! ## Independence of the hardware groups and concurrent runs: theorems -/

namespace UAVSystem

variable {H : Type}

theorem runActiveController_goal (K : Connectors H) (s : UAVSystem H) (h : HardwareType)
    (c : ConnectorT) : (s.runActiveController K h).1.getGoal c = s.getGoal c := by
  unfold runActiveController
  cases hact : s.active_controllers_ h with
  | none => rfl
  | some a =>
    simp only [getGoal, ConnectorState.getGoal]
    by_cases hc : c = a
    · subst hc
      simp
    · simp [Function.update_noteq hc]

/-- C24: for two distinct hardware types `h` and `h2`, `setGoal` on a connector of group
`h`, `abortController(h)` and `runActiveController(h)` leave the active-controller
entry of `h2` as it was; and `abortController` and `runActiveController` leave the goal
of every connector as it was. -/
theorem C24_groups_independent (K : Connectors H) (s : UAVSystem H) (h h2 : HardwareType)
    (c : ConnectorT) (goal : GoalT c) (hne : h2 ≠ h) (hc : K.getHardwareType c = h) :
    (s.setGoal K c goal).1.active_controllers_ h2 = s.active_controllers_ h2 ∧
    (s.abortController h).1.active_controllers_ h2 = s.active_controllers_ h2 ∧
    (s.runActiveController K h).1.active_controllers_ h2 = s.active_controllers_ h2 ∧
    (∀ k, (s.abortController h).1.getGoal k = s.getGoal k) ∧
    (∀ k, (s.runActiveController K h).1.getGoal k = s.getGoal k) := by
  refine ⟨?_, ?_, ?_, ?_, ?_⟩
  · rw [setGoal_active, hc, Function.update_noteq hne]
  · rw [abortController_active, Function.update_noteq hne]
  · rw [runActiveController_active]
  · intro k
    rfl
  · intro k
    exact runActiveController_goal K s h k

/-- Witness of C24: on the sample system the velocity connector drives the UAV; a goal
set on it, an abort and a run of the UAV group leave the entry of the arm group as it
was. -/
theorem C24_groups_independent_witness :
    (HardwareType.Arm ≠ HardwareType.UAV ∧
      sampleConnectors.getHardwareType ConnectorT.BuiltInVelocityControllerDroneConnector =
        HardwareType.UAV) ∧
    (sampleEngaged.setGoal sampleConnectors ConnectorT.BuiltInVelocityControllerDroneConnector
        sampleVelocityGoal).1.active_controllers_ HardwareType.Arm =
      sampleEngaged.active_controllers_ HardwareType.Arm ∧
    (sampleEngaged.abortController HardwareType.UAV).1.active_controllers_ HardwareType.Arm =
      sampleEngaged.active_controllers_ HardwareType.Arm ∧
    (sampleEngaged.runActiveController sampleConnectors
        HardwareType.UAV).1.active_controllers_ HardwareType.Arm =
      sampleEngaged.active_controllers_ HardwareType.Arm :=
  ⟨⟨by decide, rfl⟩,
    (C24_groups_independent sampleConnectors sampleEngaged HardwareType.UAV HardwareType.Arm
      ConnectorT.BuiltInVelocityControllerDroneConnector sampleVelocityGoal (by decide)
      rfl).1,
    (C24_groups_independent sampleConnectors sampleEngaged HardwareType.UAV HardwareType.Arm
      ConnectorT.BuiltInVelocityControllerDroneConnector sampleVelocityGoal (by decide)
      rfl).2.1,
    (C24_groups_independent sampleConnectors sampleEngaged HardwareType.UAV HardwareType.Arm
      ConnectorT.BuiltInVelocityControllerDroneConnector sampleVelocityGoal (by decide)
      rfl).2.2.1⟩

/-- With no call of another thread between its two steps, `runActiveController` is the
read followed by the section under the lock. -/
theorem runActiveController_eq_read_then_locked (K : Connectors H) (s : UAVSystem H)
    (h : HardwareType) :
    s.runActiveController K h =
      s.runActiveController_locked K h (s.runActiveController_read h) := by
  unfold runActiveController runActiveController_locked runActiveController_read
  cases s.active_controllers_ h <;> rfl

/-- The section under the lock runs the connector that was read, whatever the active
reference is by then. -/
theorem runActiveController_locked_runs_snapshot (K : Connectors H) (s : UAVSystem H)
    (h : HardwareType) (C : ConnectorT) :
    Event.run C ∈ (s.runActiveController_locked K h (some C)).2 := by
  simp [runActiveController_locked]

/-- C22, the code on the failing schedule: on the sample system the velocity connector
is active for the UAV; a thread in `runActiveController(UAV)` reads it; then another
thread aborts the UAV group, or sets a goal on the position connector.  When the first
thread obtains the lock the velocity connector is not the active one any more, yet its
`run()` is called and writes to the hardware. -/
theorem C22_stale_connector_is_run :
    sampleEngaged.runActiveController_read HardwareType.UAV =
      some ConnectorT.BuiltInVelocityControllerDroneConnector ∧
    ((sampleEngaged.runActiveControllerInterleaved sampleConnectors HardwareType.UAV
        (Op.abortController HardwareType.UAV)).1.active_controllers_ HardwareType.UAV = none ∧
      (sampleEngaged.runActiveControllerInterleaved sampleConnectors HardwareType.UAV
        (Op.abortController HardwareType.UAV)).2.2 =
        [Event.lock HardwareType.UAV,
          Event.run ConnectorT.BuiltInVelocityControllerDroneConnector,
          Event.hardwareWrite ConnectorT.BuiltInVelocityControllerDroneConnector,
          Event.unlock HardwareType.UAV]) ∧
    ((sampleEngaged.runActiveControllerInterleaved sampleConnectors HardwareType.UAV
        (Op.setGoal ConnectorT.PositionControllerDroneConnector
          samplePositionGoal)).1.active_controllers_ HardwareType.UAV =
        some ConnectorT.PositionControllerDroneConnector ∧
      (sampleEngaged.runActiveControllerInterleaved sampleConnectors HardwareType.UAV
        (Op.setGoal ConnectorT.PositionControllerDroneConnector samplePositionGoal)).2.2 =
        [Event.lock HardwareType.UAV,
          Event.run ConnectorT.BuiltInVelocityControllerDroneConnector,
          Event.hardwareWrite ConnectorT.BuiltInVelocityControllerDroneConnector,
          Event.unlock HardwareType.UAV]) := by
  refine ⟨by decide, ⟨by decide, by decide⟩, by decide, by decide⟩

end UAVSystem

/-! ## The bounds of the backstepping connector as an invariant: theorems -/

namespace QrotorBacksteppingControllerConnector

variable {G : Type}

theorem sendControllerCommands_m_g (L : NumericLibrary)
    (s : QrotorBacksteppingControllerConnector G) (control : QrotorBacksteppingControl)
    (now : ℚ) :
    (s.sendControllerCommands L control now).1.m_ = s.m_ ∧
    (s.sendControllerCommands L control now).1.g_ = s.g_ :=
  ⟨rfl, rfl⟩

theorem sendAll_m_g (L : NumericLibrary) (calls : List (QrotorBacksteppingControl × ℚ)) :
    ∀ s : QrotorBacksteppingControllerConnector G,
      (sendAll L s calls).m_ = s.m_ ∧ (sendAll L s calls).g_ = s.g_ := by
  induction calls with
  | nil => intro s; exact ⟨rfl, rfl⟩
  | cons call calls ih => intro s; exact ih _

end QrotorBacksteppingControllerConnector

/-! ## The MPC trajectory visualizer: theorems -/

theorem readAt_of_lt {α : Type} (v : List α) (k : Nat) (d : α) (h : k < v.length) :
    readAt v k = Except.ok (v.getD k d) := by
  unfold readAt
  rw [List.getD_eq_getElem?_getD, List.getElem?_eq_getElem h]
  rfl

namespace MPCTrajectoryVisualizer

/-- The state message is built without a failure from a state of at least 19 entries. -/
theorem stateMessage_ok (x : List ℚ) (hx : 19 ≤ x.length) :
    ∃ state, stateMessage x = Except.ok state := by
  unfold stateMessage
  rw [readAt_of_lt x 0 0 (by omega), readAt_of_lt x 1 0 (by omega),
    readAt_of_lt x 2 0 (by omega), readAt_of_lt x 3 0 (by omega),
    readAt_of_lt x 4 0 (by omega), readAt_of_lt x 5 0 (by omega),
    readAt_of_lt x 6 0 (by omega), readAt_of_lt x 7 0 (by omega),
    readAt_of_lt x 8 0 (by omega), readAt_of_lt x 15 0 (by omega),
    readAt_of_lt x 16 0 (by omega), readAt_of_lt x 17 0 (by omega),
    readAt_of_lt x 18 0 (by omega)]
  exact ⟨_, rfl⟩

/-- The control message built from a state of at least 21 entries and a control that is
not empty: what each entry of `ctrlvec` holds. -/
theorem controlMessage_entries (x u : List ℚ) (hx : 21 ≤ x.length) (hu : 1 ≤ u.length) :
    ∃ control, controlMessage x u = Except.ok control ∧
      ∀ k, control.ctrlvec k =
        if k = 0 then some (u.getD 0 0)
        else if k = 1 then some (x.getD 12 0)
        else if k = 2 then some (x.getD 13 0)
        else if k = 3 then some (x.getD 14 0)
        else if k = 4 then some (x.getD 20 0)
        else none := by
  unfold controlMessage
  rw [readAt_of_lt u 0 0 (by omega), readAt_of_lt x 12 0 (by omega),
    readAt_of_lt x 13 0 (by omega), readAt_of_lt x 14 0 (by omega),
    readAt_of_lt x 19 0 (by omega), readAt_of_lt x 20 0 (by omega)]
  refine ⟨_, rfl, ?_⟩
  intro k
  simp only [Function.update_apply]
  split_ifs <;> first | rfl | omega

theorem range_map_step (s i m : Nat) :
    (List.range (m + 1)).map (fun k => i + k * s) =
      i :: (List.range m).map (fun k => i + s + k * s) := by
  rw [List.range_succ_eq_map, List.map_cons, List.map_map]
  congr 1
  · simp
  · apply List.map_congr_left
    intro k _
    simp only [Function.comp, Nat.succ_eq_add_one]
    ring

theorem stateIndices_cons (s N i : Nat) (hs : 1 ≤ s) (hi : i ≤ N) :
    stateIndices s N i = i :: stateIndices s N (i + s) := by
  unfold stateIndices
  have h1 : N + s - i = N - i + s := by omega
  have h2 : N + s - (i + s) = N - i := by omega
  rw [h1, h2, Nat.add_div_right _ (by omega : 0 < s), range_map_step]

theorem stateIndices_nil (s N i : Nat) (hs : 1 ≤ s) (hi : N < i) :
    stateIndices s N i = [] := by
  unfold stateIndices
  rw [Nat.div_eq_of_lt (by omega)]
  rfl

theorem controlIndices_cons (s N i : Nat) (hs : 1 ≤ s) (hi : i < N) :
    controlIndices s N i = i :: controlIndices s N (i + s) := by
  unfold controlIndices
  have h1 : N + (s - 1) - i = N - 1 - i + s := by omega
  have h2 : N + (s - 1) - (i + s) = N - 1 - i := by omega
  rw [h1, h2, Nat.add_div_right _ (by omega : 0 < s), range_map_step]

theorem controlIndices_nil (s N i : Nat) (hs : 1 ≤ s) (hi : N ≤ i) :
    controlIndices s N i = [] := by
  unfold controlIndices
  rw [Nat.div_eq_of_lt (by omega)]
  rfl

theorem getD_mem {α : Type} (v : List α) (k : Nat) (d : α) (h : k < v.length) :
    v.getD k d ∈ v := by
  rw [List.getD_eq_getElem _ _ h]
  exact List.getElem_mem h

/-- The loop of `getTrajectory` with a positive step, on states of at least 21 entries
and controls that are not empty: with fuel enough to reach `N + 1` it returns, and the
messages it adds are those of the counter values it visits, in order. -/
theorem getTrajectoryLoop_ok (xs us : List (List ℚ)) (s : Nat) (hs : 1 ≤ s)
    (hx : ∀ x ∈ xs, 21 ≤ x.length) (hu : ∀ u ∈ us, 1 ≤ u.length) :
    ∀ (fuel i : Nat) (traj : gcop_comm.CtrlTraj), traj.N + 1 ≤ xs.length →
      traj.N ≤ us.length → traj.N + 1 ≤ i + fuel →
      ∃ out, getTrajectoryLoop xs us s fuel i traj = Except.ok out ∧ out.N = traj.N ∧
        out.statemsg.map (Except.ok : gcop_comm.State → Except LoopError gcop_comm.State) =
          traj.statemsg.map Except.ok ++
            (stateIndices s traj.N i).map (fun j => stateMessage (xs.getD j [])) ∧
        out.ctrl.map (Except.ok : gcop_comm.Ctrl → Except LoopError gcop_comm.Ctrl) =
          traj.ctrl.map Except.ok ++
            (controlIndices s traj.N i).map
              (fun j => controlMessage (xs.getD j []) (us.getD j [])) := by
  intro fuel
  induction fuel with
  | zero =>
    intro i traj _ _ hfuel
    refine ⟨traj, ?_, rfl, ?_, ?_⟩
    · simp only [getTrajectoryLoop]
      rw [if_neg (by omega)]
    · rw [stateIndices_nil s traj.N i hs (by omega)]
      simp
    · rw [controlIndices_nil s traj.N i hs (by omega)]
      simp
  | succ fuel ih =>
    intro i traj hxs hus hfuel
    by_cases hi : i < traj.N + 1
    · have hread : readAt xs i = Except.ok (xs.getD i []) := readAt_of_lt xs i [] (by omega)
      have hxi : 21 ≤ (xs.getD i []).length := hx _ (getD_mem xs i [] (by omega))
      obtain ⟨state, hstate⟩ := stateMessage_ok (xs.getD i []) (by omega)
      by_cases hN : i < traj.N
      · have hreadu : readAt us i = Except.ok (us.getD i []) := readAt_of_lt us i [] (by omega)
        have hui : 1 ≤ (us.getD i []).length := hu _ (getD_mem us i [] (by omega))
        obtain ⟨control, hcontrol, _⟩ :=
          controlMessage_entries (xs.getD i []) (us.getD i []) hxi hui
        obtain ⟨out, hout, hoN, hos, hoc⟩ := ih (i + s)
          { traj with statemsg := traj.statemsg ++ [state], ctrl := traj.ctrl ++ [control] }
          hxs hus (by simp only; omega)
        refine ⟨out, ?_, hoN, ?_, ?_⟩
        · simp only [getTrajectoryLoop]
          rw [if_pos hi, hread]
          simp only [bind, Except.bind, hstate, if_pos hN, hreadu, hcontrol]
          exact hout
        · rw [hos, stateIndices_cons s traj.N i hs (by omega)]
          simp only [List.map_append, List.map_cons, List.map_nil, List.append_assoc,
            List.singleton_append, hstate]
        · rw [hoc, controlIndices_cons s traj.N i hs hN]
          simp only [List.map_append, List.map_cons, List.map_nil, List.append_assoc,
            List.singleton_append, hcontrol]
      · obtain ⟨out, hout, hoN, hos, hoc⟩ := ih (i + s)
          { traj with statemsg := traj.statemsg ++ [state] } hxs hus (by simp only; omega)
        refine ⟨out, ?_, hoN, ?_, ?_⟩
        · simp only [getTrajectoryLoop]
          rw [if_pos hi, hread]
          simp only [bind, Except.bind, hstate, if_neg hN]
          exact hout
        · rw [hos, stateIndices_cons s traj.N i hs (by omega)]
          simp only [List.map_append, List.map_cons, List.map_nil, List.append_assoc,
            List.singleton_append, hstate]
        · rw [hoc, controlIndices_nil s traj.N i hs (by omega),
            controlIndices_nil s traj.N (i + s) hs (by omega)]
    · refine ⟨traj, ?_, rfl, ?_, ?_⟩
      · simp only [getTrajectoryLoop]
        rw [if_neg hi]
      · rw [stateIndices_nil s traj.N i hs (by omega)]
        simp
      · rw [controlIndices_nil s traj.N i hs (by omega)]
        simp

/-- C25, the code on a failing input: for the sample state, whose entry `k` holds `k`,
and the sample control of thrust 100, the trajectory of five states and four controls
has four control messages, and each of them holds the thrust in `ctrlvec[0]`, the rates
12, 13, 14 in `ctrlvec[1..3]` and `x[20]` in `ctrlvec[4]`; `ctrlvec[5]` is not assigned
and `x[19]` is in no entry: the assignment of `x[20]` to `ctrlvec[4]` has replaced
it. -/
theorem C25_joint_angle_overwritten :
    ∃ traj, getTrajectory sampleMPCStates sampleMPCControls 1 5 = Except.ok traj ∧
      traj.ctrl.length = 4 ∧
      ∀ control ∈ traj.ctrl,
        (control.ctrlvec 0 = some 100 ∧ control.ctrlvec 1 = some 12 ∧
          control.ctrlvec 2 = some 13 ∧ control.ctrlvec 3 = some 14) ∧
        control.ctrlvec 4 = some 20 ∧ control.ctrlvec 5 = none ∧
        ∀ k, control.ctrlvec k ≠ some 19 := by
  refine ⟨_, rfl, rfl, ?_⟩
  intro control hc
  simp only [List.mem_cons, List.mem_singleton, List.append, List.nil_append,
    List.cons_append, List.mem_nil_iff, or_false] at hc
  rcases hc with rfl | rfl | rfl | rfl <;>
    (refine ⟨⟨rfl, rfl, rfl, rfl⟩, rfl, rfl, ?_⟩
     intro k
     simp only [Function.update_apply]
     split_ifs <;> exact fun h => nomatch h)

/-- With a step of 0 the counter stays where it is, and a run that has entered the loop
has not left it when the fuel is used up, whatever the fuel. -/
theorem getTrajectoryLoop_zero_step (xs us : List (List ℚ))
    (hx : ∀ x ∈ xs, 21 ≤ x.length) (hu : ∀ u ∈ us, 1 ≤ u.length) :
    ∀ (fuel i : Nat) (traj : gcop_comm.CtrlTraj), traj.N + 1 ≤ xs.length →
      traj.N ≤ us.length → i < traj.N + 1 →
      getTrajectoryLoop xs us 0 fuel i traj = Except.error LoopError.outOfFuel := by
  intro fuel
  induction fuel with
  | zero =>
    intro i traj _ _ hi
    simp only [getTrajectoryLoop]
    rw [if_pos hi]
  | succ fuel ih =>
    intro i traj hxs hus hi
    have hread : readAt xs i = Except.ok (xs.getD i []) := readAt_of_lt xs i [] (by omega)
    have hxi : 21 ≤ (xs.getD i []).length := hx _ (getD_mem xs i [] (by omega))
    obtain ⟨state, hstate⟩ := stateMessage_ok (xs.getD i []) (by omega)
    by_cases hN : i < traj.N
    · have hreadu : readAt us i = Except.ok (us.getD i []) := readAt_of_lt us i [] (by omega)
      have hui : 1 ≤ (us.getD i []).length := hu _ (getD_mem us i [] (by omega))
      obtain ⟨control, hcontrol, _⟩ :=
        controlMessage_entries (xs.getD i []) (us.getD i []) hxi hui
      simp only [getTrajectoryLoop]
      rw [if_pos hi, hread]
      simp only [bind, Except.bind, hstate, if_pos hN, hreadu, hcontrol]
      exact ih i _ hxs hus hi
    · simp only [getTrajectoryLoop]
      rw [if_pos hi, hread]
      simp only [bind, Except.bind, hstate, if_neg hN]
      exact ih i _ hxs hus hi

/-- C27: for `N` controls that are not empty and at least `N + 1` states of at least 21
entries, `getTrajectory` with a step of at least 1 returns a trajectory on every fuel
of at least `N + 1`: it terminates, and no read is out of bounds.  With a step of 0 the
counter never advances: on every fuel the run is still in the loop when the fuel is
used up. -/
theorem C27_terminates_and_reads_in_bounds (xs us : List (List ℚ)) (s fuel : Nat)
    (hxs : us.length + 1 ≤ xs.length) (hx : ∀ x ∈ xs, 21 ≤ x.length)
    (hu : ∀ u ∈ us, 1 ≤ u.length) :
    (1 ≤ s → us.length + 1 ≤ fuel →
      ∃ traj, getTrajectory xs us s fuel = Except.ok traj) ∧
    getTrajectory xs us 0 fuel = Except.error LoopError.outOfFuel := by
  constructor
  · intro hs hfuel
    obtain ⟨traj, hrun, _⟩ :=
      getTrajectoryLoop_ok xs us s hs hx hu fuel 0
        { N := us.length, statemsg := [], ctrl := [] } hxs (le_refl _)
        (by simp only; omega)
    exact ⟨traj, hrun⟩
  · exact getTrajectoryLoop_zero_step xs us hx hu fuel 0
      { N := us.length, statemsg := [], ctrl := [] } hxs (le_refl _) (Nat.succ_pos _)

/-- Witness of C27: the sample trajectory with a step of 3 returns on a fuel of 5, and
with a step of 0 it is out of fuel. -/
theorem C27_terminates_and_reads_in_bounds_witness :
    (sampleMPCControls.length + 1 ≤ sampleMPCStates.length ∧
      (∀ x ∈ sampleMPCStates, 21 ≤ x.length) ∧
      (∀ u ∈ sampleMPCControls, 1 ≤ u.length)) ∧
    (∃ traj, getTrajectory sampleMPCStates sampleMPCControls 3 5 = Except.ok traj) ∧
    getTrajectory sampleMPCStates sampleMPCControls 0 5 =
      Except.error LoopError.outOfFuel :=
  ⟨⟨by decide, by decide, by decide⟩,
    (C27_terminates_and_reads_in_bounds sampleMPCStates sampleMPCControls 3 5 (by decide)
      (by decide) (by decide)).1 (by decide) (by decide),
    (C27_terminates_and_reads_in_bounds sampleMPCStates sampleMPCControls 3 5 (by decide)
      (by decide) (by decide)).2⟩

end MPCTrajectoryVisualizer

end AerialAutonomy
